import Mathlib

/-!
Verification of the asynchronous-job / health-monitoring subsystem of the
edgerunner-v2 backend (`src/backend/src/services/flex_query_service.py` and
`src/backend/src/services/connection_health.py`), as a shallow embedding in
Lean 4.  Pure functions are translated to Lean functions; the mutable
registries (`active_queries`, `health_checks`, `recovery_attempts`) are
threaded explicitly; wall-clock time is a natural number of seconds advanced
by the modelled sleeps and by caller-supplied network durations; Python
exceptions become `Except String`.  Python `float` values that the code
constructs and compares are modelled as exact rationals; where a comparison
against a floating-point constant could differ from the rational comparison,
the definition carries a comment identifying the constant and the inputs on
which the two agree.
-/

/-- Does the first list start with the second? -/
def startsWithChars : List Char → List Char → Bool
  | _, [] => true
  | [], _ :: _ => false
  | a :: as, b :: bs => a == b && startsWithChars as bs

/-- Does the first list contain the second as a contiguous run? -/
def containsChars : List Char → List Char → Bool
  | [], needle => startsWithChars [] needle
  | a :: rest, needle =>
      startsWithChars (a :: rest) needle || containsChars rest needle

/-- `containsSub s pat`: does `s` contain `pat` as a substring?  Models the
Python expression `pat in s`. -/
def containsSub (s pat : String) : Bool :=
  containsChars s.data pat.data

/-- Python `str.lower()` on the ASCII strings this service matches against. -/
def strLower (s : String) : String :=
  String.mk (s.data.map Char.toLower)

/-- One step of decimal parsing: consumes the character list, tracking whether
a digit has been seen, how many digits follow the decimal point (if a point
was seen), and the accumulated mantissa. -/
def parseDecAux : List Char → Bool → Option Nat → Nat → Option (Nat × Nat)
  | [], seenDigit, fracDigits, acc =>
      if seenDigit then some (acc, fracDigits.getD 0) else none
  | c :: cs, seenDigit, fracDigits, acc =>
      if c == '.' then
        match fracDigits with
        | some _ => none
        | none => parseDecAux cs seenDigit (some 0) acc
      else if c.isDigit then
        parseDecAux cs true (fracDigits.map (· + 1)) (10 * acc + (c.toNat - 48))
      else none

/-- Models Python `float()` applied to a string, on the plain decimal literals
this service encounters: an optional sign, digits, at most one decimal point,
at least one digit.  Returns `none` where `float()` raises `ValueError`.
(Scientific notation, `inf`, `nan` and underscore separators are accepted by
Python but are outside the inputs any claim touches.) -/
def parseFloat (s : String) : Option Rat :=
  match s.data with
  | '-' :: rest =>
      (parseDecAux rest false none 0).map
        (fun p => Rat.divInt (-(p.1 : Int)) ((10 : Int) ^ p.2))
  | '+' :: rest =>
      (parseDecAux rest false none 0).map
        (fun p => Rat.divInt (p.1 : Int) ((10 : Int) ^ p.2))
  | cs =>
      (parseDecAux cs false none 0).map
        (fun p => Rat.divInt (p.1 : Int) ((10 : Int) ^ p.2))

/-- Sequence a fallible function over a list, left to right, stopping at the
first failure (the behaviour of the Python `for` loops that build record
lists and sums: the first raising element aborts the whole loop). -/
def mapExcept {a b : Type} (f : a → Except String b) : List a → Except String (List b)
  | [] => Except.ok []
  | x :: xs => do
    let y ← f x
    let ys ← mapExcept f xs
    Except.ok (y :: ys)

/-! ## Connection health monitor (`connection_health.py`) -/

/-- `ConnectionHealth` enum of `connection_health.py`. -/
inductive ConnectionHealth
  | healthy
  | degraded
  | unhealthy
  | unknown
deriving DecidableEq, Repr

/-- One entry of the `health_details` dict built by `_detailed_health_check`:
the sub-check name (`account_access`, `market_data` or `positions_access`),
its `success` flag, the optional `data_quality` string (set only by the
market-data sub-check) and the `duration_ms` value (read back by
`_determine_health_status` with default 0).  The sub-check outcomes come from
the probed broker, so they are inputs of the model. -/
structure CheckEntry where
  name : String
  success : Bool
  dataQuality : Option String := none
  durationMs : Rat := 0
deriving DecidableEq, Repr

/-- The warning test of `_determine_health_status` (applied only to
successful sub-checks): market data of quality `poor`, or an account-access
duration above 5000 ms.  The two arms mirror the `if`/`elif` of the source. -/
def checkWarning (e : CheckEntry) : Bool :=
  if e.name == "market_data" && e.dataQuality == some "poor" then true
  else e.name == "account_access" && decide (e.durationMs > 5000)

/-- `_determine_health_status`: counts sub-checks, successes and warning
conditions, then classifies.  The Python comparison is
`successful_checks >= total_checks * 0.7` in IEEE doubles; this model uses the
exact rational threshold, written `10 * succ ≥ 7 * total`.  For the
three-sub-check dicts this monitor builds the two comparisons classify
identically (the double `3 * 0.7` is `2.0999999999999996`, and no integer lies
between it and `21/10`). -/
def determineHealthStatus (healthDetails : List CheckEntry) : ConnectionHealth :=
  let totalChecks := healthDetails.length
  let successfulChecks := (healthDetails.filter (·.success)).length
  let warningConditions :=
    (healthDetails.filter (fun e => e.success && checkWarning e)).length
  if successfulChecks == totalChecks && warningConditions == 0 then
    ConnectionHealth.healthy
  else if 10 * successfulChecks ≥ 7 * totalChecks then
    ConnectionHealth.degraded
  else
    ConnectionHealth.unhealthy

/-- The fields of `BrokerConnection` read by `check_broker_health`: the
`status` string and the optional `error` text. -/
structure BrokerConnection where
  status : String
  error : Option String := none
deriving DecidableEq, Repr

/-- What one probe of one target yields: the result of
`get_broker_status` (or the exception it raised), and the sub-check dict that
`_detailed_health_check` would assemble for it.  `_detailed_health_check`
catches every per-sub-check exception internally, so it never raises and is
adequately modelled by its resulting entry list. -/
structure ProbeResult where
  conn : Except String BrokerConnection
  details : List CheckEntry
deriving Repr

/-- The `details` dict attached to a `HealthCheckResult`: either the sub-check
dict, the `recovery_successful` marker, the `recovery_attempts` count, or
empty. -/
inductive HealthDetails
  | subChecks (entries : List CheckEntry)
  | recoverySuccessful
  | recoveryAttempts (count : Nat)
  | empty
deriving DecidableEq, Repr

/-- `HealthCheckResult` of `connection_health.py`.  The `last_check`
wall-clock timestamp is not modelled (no claim depends on it). -/
structure HealthCheckResult where
  brokerId : String
  health : ConnectionHealth
  error : Option String := none
  details : HealthDetails
deriving DecidableEq, Repr

/-- The `recovery_attempts` dict: per-broker counter, read with default 0.
`pop` and absence are observationally the value 0 (every read in the source
uses `.get(broker_id, 0)`). -/
def Counters : Type := String → Nat

/-- `recovery_attempts.get(broker_id, 0)`. -/
def Counters.get (cs : Counters) (brokerId : String) : Nat := cs brokerId

/-- `recovery_attempts[broker_id] = n`. -/
def Counters.set (cs : Counters) (brokerId : String) (n : Nat) : Counters :=
  fun x => if x == brokerId then n else cs x

/-- `recovery_attempts.pop(broker_id, None)`: subsequent default-0 reads see 0. -/
def Counters.erase (cs : Counters) (brokerId : String) : Counters :=
  cs.set brokerId 0

/-- `max_recovery_attempts` (constructor default). -/
def maxRecoveryAttempts : Nat := 3

/-- `_attempt_recovery`: the source has no stored credentials and always
returns `False` (its `except` arm also returns `False`). -/
def attemptRecovery (_brokerId : String) : Bool := false

/-- `check_broker_health`, with the probed broker state supplied as input and
the `recovery_attempts` dict threaded explicitly.  Returns the
`HealthCheckResult` and the updated counters.  Mirrors the four arms of the
source: probe exception → Unknown; connected → classify sub-checks (reset the
counter on Healthy); disconnected → bounded auto-recovery then Unhealthy;
any other status → Unhealthy with the connection error text. -/
def checkBrokerHealth (brokerId : String) (probe : ProbeResult)
    (counters : Counters) : HealthCheckResult × Counters :=
  match probe.conn with
  | .error e =>
      ({ brokerId := brokerId, health := ConnectionHealth.unknown,
         error := some e, details := HealthDetails.empty }, counters)
  | .ok connection =>
      if connection.status == "connected" then
        let healthDetails := probe.details
        let healthStatus := determineHealthStatus healthDetails
        let counters1 :=
          if healthStatus == ConnectionHealth.healthy then
            counters.erase brokerId
          else counters
        ({ brokerId := brokerId, health := healthStatus,
           details := HealthDetails.subChecks healthDetails }, counters1)
      else if connection.status == "disconnected" then
        let recoveryCount := counters.get brokerId
        if recoveryCount < maxRecoveryAttempts then
          if attemptRecovery brokerId then
            ({ brokerId := brokerId, health := ConnectionHealth.healthy,
               details := HealthDetails.recoverySuccessful },
             counters.erase brokerId)
          else
            let counters1 := counters.set brokerId (recoveryCount + 1)
            ({ brokerId := brokerId, health := ConnectionHealth.unhealthy,
               error := some "Broker disconnected",
               details := HealthDetails.recoveryAttempts (counters1.get brokerId) },
             counters1)
        else
          ({ brokerId := brokerId, health := ConnectionHealth.unhealthy,
             error := some "Broker disconnected",
             details := HealthDetails.recoveryAttempts (counters.get brokerId) },
           counters)
      else
        ({ brokerId := brokerId, health := ConnectionHealth.unhealthy,
           error := some (connection.error.getD "Connection error"),
           details := HealthDetails.empty }, counters)

/-- The monitor state the claims observe: the `health_checks` dict and the
`recovery_attempts` dict. -/
structure MonitorState where
  healthChecks : String → Option HealthCheckResult
  counters : Counters

/-- A subscriber callback; a `.error` result models the callback raising. -/
def Callback : Type := String → ConnectionHealth → Except String Unit

/-- One observable callback invocation: which callback (by position in
`self.callbacks`), for which broker, with which health value, and whether the
callback raised (the raise is caught and logged by the source). -/
structure CbEvent where
  cbIdx : Nat
  brokerId : String
  health : ConnectionHealth
  threw : Bool
deriving DecidableEq, Repr

/-- Whether an `Except` result is an exception. -/
def exceptThrew {α : Type} (r : Except String α) : Bool :=
  match r with
  | .ok _ => false
  | .error _ => true

/-- The callback loop of `check_all_brokers_health`: each callback is invoked
in order with `(broker_id, health)`; the per-callback `try`/`except` catches a
raising callback, so the loop always proceeds to the next one.  Returns the
invocation events. -/
def runCallbacks (cbs : List Callback) (brokerId : String)
    (health : ConnectionHealth) : List CbEvent :=
  cbs.enum.map (fun p =>
    { cbIdx := p.1, brokerId := brokerId, health := health,
      threw := exceptThrew (p.2 brokerId health) })

/-- `check_all_brokers_health`: for each supported broker in order, run
`check_broker_health`; if the new classification differs from the previously
recorded one (or there is none), invoke every callback; then store the new
result.  Returns the final state, the callback events in order, and the
per-broker results list (the `results` dict). -/
def checkAllBrokersHealth (brokers : List String)
    (probe : String → ProbeResult) (cbs : List Callback)
    (st : MonitorState) :
    MonitorState × List CbEvent × List (String × HealthCheckResult) :=
  match brokers with
  | [] => (st, [], [])
  | b :: rest =>
      let checked := checkBrokerHealth b (probe b) st.counters
      let events :=
        match st.healthChecks b with
        | none => runCallbacks cbs b checked.1.health
        | some oldHealth =>
            if oldHealth.health ≠ checked.1.health then
              runCallbacks cbs b checked.1.health
            else []
      let st1 : MonitorState :=
        { healthChecks := fun x => if x == b then some checked.1 else st.healthChecks x,
          counters := checked.2 }
      let tail := checkAllBrokersHealth rest probe cbs st1
      (tail.1, events ++ tail.2.1, (b, checked.1) :: tail.2.2)

/-- `force_health_check` with a specific `broker_id`: one fresh
`check_broker_health`, stored into `health_checks`; the callback list is never
consulted on this path.  Returns the singleton result map, the new state and
the (empty) list of callback events. -/
def forceHealthCheck (brokerId : String) (probe : String → ProbeResult)
    (_cbs : List Callback) (st : MonitorState) :
    List (String × HealthCheckResult) × MonitorState × List CbEvent :=
  let checked := checkBrokerHealth brokerId (probe brokerId) st.counters
  ([(brokerId, checked.1)],
   { healthChecks := fun x => if x == brokerId then some checked.1 else st.healthChecks x,
     counters := checked.2 },
   [])

/-! ## Document model and parser (`flex_query_service.py`) -/

/-- An XML element as `xml.etree.ElementTree` presents it: a tag, an
attribute dict, and child elements. -/
inductive XmlElement where
  | elem (tag : String) (attribs : List (String × String)) (children : List XmlElement)

/-- The element tag. -/
def XmlElement.tag : XmlElement → String
  | .elem t _ _ => t

/-- The attribute dict. -/
def XmlElement.attribs : XmlElement → List (String × String)
  | .elem _ a _ => a

/-- The child elements. -/
def XmlElement.children : XmlElement → List XmlElement
  | .elem _ _ c => c

mutual

/-- `element.iter()`: the element followed by all descendants, in document
(preorder) order. -/
def XmlElement.iterAll : XmlElement → List XmlElement
  | .elem t a c => XmlElement.elem t a c :: iterAllList c

/-- `iter()` concatenated over a list of elements. -/
def iterAllList : List XmlElement → List XmlElement
  | [] => []
  | x :: xs => x.iterAll ++ iterAllList xs

end

/-- `root.findall(".//" + tagName)`: every element strictly below the root
with the given tag, in document order. -/
def findAllDesc (root : XmlElement) (tagName : String) : List XmlElement :=
  (iterAllList root.children).filter (fun e => e.tag == tagName)

/-- A value stored in a parsed record dict: the attribute string as parsed, or
a float produced by a numeric coercion. -/
inductive FieldValue where
  | str (s : String)
  | num (q : Rat)
deriving DecidableEq, Repr

/-- A parsed record: the Python `Dict[str, Any]`, as an ordered association
list (Python dicts preserve insertion order; `pop` + assign reinserts at the
end). -/
abbrev Record := List (String × FieldValue)

/-- `key in record_dict`. -/
def fieldHas (r : Record) (k : String) : Bool :=
  r.any (fun p => p.1 == k)

/-- `record_dict.get(key, default)`. -/
def fieldGetD (r : Record) (k : String) (d : FieldValue) : FieldValue :=
  match r.find? (fun p => p.1 == k) with
  | some p => p.2
  | none => d

/-- `record_dict[key] = v`: replaces the entry in place when the key exists
(keys are unique, as in a Python dict), otherwise appends. -/
def fieldSet : Record → String → FieldValue → Record
  | [], k, v => [(k, v)]
  | p :: ps, k, v => if p.1 == k then (k, v) :: ps else p :: fieldSet ps k v

/-- `record_dict.pop(key)` (dropping the key). -/
def fieldErase (r : Record) (k : String) : Record :=
  r.filter (fun p => p.1 != k)

/-- `dict(element.attrib)`: every attribute value enters as a string. -/
def stringRecord (attribs : List (String × String)) : Record :=
  attribs.map (fun p => (p.1, FieldValue.str p.2))

/-- `d[newKey] = d.pop(oldKey)`, guarded by `if oldKey in d`. -/
def renameField (r : Record) (oldKey newKey : String) : Record :=
  if fieldHas r oldKey then
    fieldSet (fieldErase r oldKey) newKey (fieldGetD r oldKey (FieldValue.str ""))
  else r

/-- `d[key] = float(d[key])`, guarded by `if key in d`: an unparseable string
raises (`.error`), exactly as Python `float()` raises `ValueError`; there is
no handler in any of the parse helpers, so the error propagates. -/
def coerceFloatAt (r : Record) (k : String) : Except String Record :=
  if fieldHas r k then
    match fieldGetD r k (FieldValue.str "") with
    | .str s =>
        match parseFloat s with
        | some q => .ok (fieldSet r k (.num q))
        | none => .error ("could not convert string to float: " ++ s)
    | .num q => .ok (fieldSet r k (.num q))
  else .ok r

/-- `d[newKey] = float(d.pop(oldKey))`, guarded by `if oldKey in d`. -/
def popCoerceFloat (r : Record) (oldKey newKey : String) : Except String Record :=
  if fieldHas r oldKey then
    match fieldGetD r oldKey (FieldValue.str "") with
    | .str s =>
        match parseFloat s with
        | some q => .ok (fieldSet (fieldErase r oldKey) newKey (.num q))
        | none => .error ("could not convert string to float: " ++ s)
    | .num q => .ok (fieldSet (fieldErase r oldKey) newKey (.num q))
  else .ok r

/-- The per-element body of `_parse_trade_records`: rename the date fields,
coerce `quantity`, `price`, `proceeds`, `commission` in place, and move
`realizedPL` to `realized_pnl` as a float, in source order. -/
def parseTradeRecord (attribs : List (String × String)) : Except String Record := do
  let r0 := stringRecord attribs
  let r1 := renameField r0 "tradeDate" "trade_date"
  let r2 := renameField r1 "settleDate" "settle_date"
  let r3 ← coerceFloatAt r2 "quantity"
  let r4 ← coerceFloatAt r3 "price"
  let r5 ← coerceFloatAt r4 "proceeds"
  let r6 ← coerceFloatAt r5 "commission"
  popCoerceFloat r6 "realizedPL" "realized_pnl"

/-- `_parse_trade_records`. -/
def parseTradeRecords (root : XmlElement) : Except String (List Record) :=
  mapExcept (fun e => parseTradeRecord e.attribs) (findAllDesc root "Trade")

/-- The per-element body of `_parse_cash_transactions`: coerce `amount`, then
rename `dateTime` to `date`. -/
def parseCashTransaction (attribs : List (String × String)) : Except String Record := do
  let r0 := stringRecord attribs
  let r1 ← coerceFloatAt r0 "amount"
  pure (renameField r1 "dateTime" "date")

/-- `_parse_cash_transactions`. -/
def parseCashTransactions (root : XmlElement) : Except String (List Record) :=
  mapExcept (fun e => parseCashTransaction e.attribs) (findAllDesc root "CashTransaction")

/-- The per-element body of `_parse_position_records`. -/
def parsePositionRecord (attribs : List (String × String)) : Except String Record := do
  let r0 := stringRecord attribs
  let r1 ← coerceFloatAt r0 "position"
  let r2 ← popCoerceFloat r1 "markPrice" "mark_price"
  let r3 ← popCoerceFloat r2 "positionValue" "position_value"
  popCoerceFloat r3 "unrealizedPL" "unrealized_pnl"

/-- `_parse_position_records`. -/
def parsePositionRecords (root : XmlElement) : Except String (List Record) :=
  mapExcept (fun e => parsePositionRecord e.attribs) (findAllDesc root "OpenPosition")

/-- The per-element body of `_parse_dividend_records`: move `totalCash` to
`amount` as a float, then copy `date` to `ex_date` (a copy, not a rename). -/
def parseDividendRecord (attribs : List (String × String)) : Except String Record := do
  let r0 := stringRecord attribs
  let r1 ← popCoerceFloat r0 "totalCash" "amount"
  if fieldHas r1 "date" then
    pure (fieldSet r1 "ex_date" (fieldGetD r1 "date" (FieldValue.str "")))
  else
    pure r1

/-- `_parse_dividend_records`. -/
def parseDividendRecords (root : XmlElement) : Except String (List Record) :=
  mapExcept (fun e => parseDividendRecord e.attribs) (findAllDesc root "ChangeInDividendAccrual")

/-- `FlexQueryData` (the `generated_at` wall-clock field is not modelled; no
claim depends on it). -/
structure FlexQueryData where
  queryId : String
  dataType : String
  records : List Record
  totalRecords : Nat
deriving DecidableEq, Repr

/-- The envelope tags excluded by the generic fallback of
`_parse_flex_query_xml`. -/
def envelopeTags : List String := ["FlexQueryResponse", "FlexStatements", "FlexStatement"]

/-- `_parse_flex_query_xml`: dispatch on the first recognised record container
in fixed priority order (Trade, CashTransaction, OpenPosition,
ChangeInDividendAccrual), falling back to generic extraction of every
attributed non-envelope element (attribute values kept as strings).  A float
coercion failure inside any branch propagates as `.error`. -/
def parseFlexQueryXml (root : XmlElement) (referenceCode : String) :
    Except String FlexQueryData := do
  if (findAllDesc root "Trade").isEmpty == false then
    let records ← parseTradeRecords root
    pure { queryId := referenceCode, dataType := "trades", records := records,
           totalRecords := records.length }
  else if (findAllDesc root "CashTransaction").isEmpty == false then
    let records ← parseCashTransactions root
    pure { queryId := referenceCode, dataType := "cash_transactions", records := records,
           totalRecords := records.length }
  else if (findAllDesc root "OpenPosition").isEmpty == false then
    let records ← parsePositionRecords root
    pure { queryId := referenceCode, dataType := "positions", records := records,
           totalRecords := records.length }
  else if (findAllDesc root "ChangeInDividendAccrual").isEmpty == false then
    let records ← parseDividendRecords root
    pure { queryId := referenceCode, dataType := "dividends", records := records,
           totalRecords := records.length }
  else
    let records :=
      ((root.iterAll).filter
        (fun e => e.attribs != [] && envelopeTags.contains e.tag == false)).map
        (fun e => stringRecord e.attribs)
    pure { queryId := referenceCode, dataType := "generic", records := records,
           totalRecords := records.length }

/-! ## Job registry and fetch (`flex_query_service.py`) -/

/-- `FlexQueryStatus` (`models.py`). -/
inductive FlexQueryStatus where
  | pending
  | running
  | completed
  | failed
deriving DecidableEq, Repr

/-- `FlexQueryResponse` (`models.py`): the job-registry entry.  Timestamps are
seconds as natural numbers. -/
structure FlexQueryResponse where
  queryId : String
  referenceCode : Option String := none
  status : FlexQueryStatus
  createdAt : Nat := 0
  completedAt : Option Nat := none
  errorMessage : Option String := none
deriving DecidableEq, Repr

/-- The `active_queries` dict: reference code → registry entry. -/
def Registry : Type := String → Option FlexQueryResponse

/-- The success-path registry update of `get_flex_query_data`: if the
reference is registered, set status Completed and stamp `completed_at`. -/
def Registry.markCompleted (reg : Registry) (referenceCode : String) (now : Nat) :
    Registry :=
  match reg referenceCode with
  | none => reg
  | some q =>
      fun r =>
        if r == referenceCode then
          some { q with status := FlexQueryStatus.completed, completedAt := some now }
        else reg r

/-- The failure-path registry update (`get_flex_query_data` and the waiter
timeout): if the reference is registered, set status Failed and record the
error text.  `completed_at` is left as it was, as in the source. -/
def Registry.markFailed (reg : Registry) (referenceCode message : String) : Registry :=
  match reg referenceCode with
  | none => reg
  | some q =>
      fun r =>
        if r == referenceCode then
          some { q with status := FlexQueryStatus.failed, errorMessage := some message }
        else reg r

/-- `get_query_status`. -/
def getQueryStatus (reg : Registry) (referenceCode : String) : Option FlexQueryResponse :=
  reg referenceCode

/-- The "statement not ready" phrase list of `get_flex_query_data`, matched
case-insensitively against the error text. -/
def fetchNotReadyPhrases : List String :=
  ["statement not yet available", "statement is being generated",
   "report generation in progress", "statement not ready"]

/-- `any(phrase in error_text.lower() for phrase in ...)` in
`get_flex_query_data`. -/
def isNotReadyFetch (errText : String) : Bool :=
  fetchNotReadyPhrases.any (fun p => containsSub (strLower errText) p)

/-- The same phrase set as matched by `wait_for_query_completion` (the source
lists the four phrases in a different order; the set is identical). -/
def waitNotReadyPhrases : List String :=
  ["statement not yet available", "statement is being generated",
   "statement not ready", "report generation in progress"]

/-- The not-ready test of `wait_for_query_completion`. -/
def isNotReadyWait (errText : String) : Bool :=
  waitNotReadyPhrases.any (fun p => containsSub (strLower errText) p)

/-- What the remote returns for one fetch attempt, at the granularity the code
branches on: a non-200 transport status with its body text, a body-level error
(`ErrorCode` ≠ "0") with its code and message, or a well-formed statement body
(HTTP 200, no body error) carrying the XML root.  Each alternative records the
wall-clock seconds the attempt took. -/
inductive AttemptResult where
  | httpError (duration status : Nat) (text : String)
  | bodyError (duration : Nat) (code message : String)
  | ok (duration : Nat) (root : XmlElement)

/-- Outcome of the `try` body of one iteration of `get_flex_query_data`:
return a value, continue to the next attempt (after an in-`try` backoff
sleep), or raise.  `spent` is the number of wall-clock seconds the attempt
consumed (network time plus any in-`try` backoff sleep). -/
inductive TryStep where
  | returned (data : FlexQueryData) (spent : Nat)
  | retryContinue (spent : Nat)
  | raised (message : String) (spent : Nat)

/-- The `try` body of one iteration of `get_flex_query_data`: a 5xx/408
transport error backs off `2 ^ attempt + 1` seconds and retries while
attempts remain, any other transport error (or a 5xx/408 on the final
attempt) raises `HTTP status: text`; a body error builds
`Error code: message`, and if it matches a not-ready phrase and attempts
remain, backs off `min (15 + attempt * 15) 180` seconds and retries,
otherwise raises the text; a well-formed body is parsed, a parse failure
(unparseable numeric field) raising out of the `try`. -/
def tryFetchStep (referenceCode : String) (maxRetries attempt : Nat)
    (ar : AttemptResult) : TryStep :=
  match ar with
  | .httpError duration status text =>
      if (500 ≤ status || status == 408) && attempt < maxRetries - 1 then
        .retryContinue (duration + (2 ^ attempt + 1))
      else
        .raised ("HTTP " ++ toString status ++ ": " ++ text) duration
  | .bodyError duration code message =>
      let errText := "Error " ++ code ++ ": " ++ message
      if isNotReadyFetch errText && attempt < maxRetries - 1 then
        .retryContinue (duration + min (15 + attempt * 15) 180)
      else
        .raised errText duration
  | .ok duration root =>
      match parseFlexQueryXml root referenceCode with
      | .ok data => .returned data duration
      | .error e => .raised e duration

/-- The attempt loop of `get_flex_query_data`, with `remaining` the number of
loop iterations left (`maxRetries - attempt`) and `now` the wall clock at
entry (used to stamp `completed_at`).  The third component of the result is
the number of seconds the loop consumed.  The `remaining = 0` base case is
Python implicitly returning `None` when the `for` range is empty; it is
unreachable for `maxRetries ≥ 1`.  The `except` arm: at the last attempt,
mark the registry entry Failed with the exception text and re-raise;
otherwise retry after `2 ^ attempt + 10` seconds when the text mentions
`statement not yet available` or `timeout`, and for any other error mark
Failed and raise at once. -/
def getFlexQueryDataAux (referenceCode : String) (maxRetries : Nat)
    (responses : Nat → AttemptResult) (attempt remaining : Nat)
    (reg : Registry) (now : Nat) :
    Except String FlexQueryData × Registry × Nat :=
  match remaining with
  | 0 => (.error "get_flex_query_data returned None", reg, 0)
  | r + 1 =>
      match tryFetchStep referenceCode maxRetries attempt (responses attempt) with
      | .returned data spent =>
          (.ok data, reg.markCompleted referenceCode (now + spent), spent)
      | .retryContinue spent =>
          let rest := getFlexQueryDataAux referenceCode maxRetries responses
            (attempt + 1) r reg (now + spent)
          (rest.1, rest.2.1, spent + rest.2.2)
      | .raised msg spent =>
          if attempt == maxRetries - 1 then
            (.error msg, reg.markFailed referenceCode msg, spent)
          else if containsSub (strLower msg) "statement not yet available" ||
                  containsSub (strLower msg) "timeout" then
            let rest := getFlexQueryDataAux referenceCode maxRetries responses
              (attempt + 1) r reg (now + spent + (2 ^ attempt + 10))
            (rest.1, rest.2.1, spent + (2 ^ attempt + 10) + rest.2.2)
          else
            (.error msg, reg.markFailed referenceCode msg, spent)

/-- `get_flex_query_data` (source default `max_retries = 8`; the completion
waiter always passes 1).  `token` is the opaque auth token, unused by the
model.  Returns the result, the updated registry and the seconds consumed. -/
def getFlexQueryData (referenceCode token : String) (maxRetries : Nat)
    (responses : Nat → AttemptResult) (reg : Registry) (now : Nat) :
    Except String FlexQueryData × Registry × Nat :=
  getFlexQueryDataAux referenceCode maxRetries responses 0 maxRetries reg now

/-! ## Completion waiter (`wait_for_query_completion`) -/

/-- The waiter backoff schedule: `check_interval` (default 10) seconds for
the first six attempts, then 15 seconds up to attempt 18, then 20 seconds. -/
def waiterBackoff (checkInterval attempt : Nat) : Nat :=
  if attempt < 6 then checkInterval
  else if attempt < 18 then 15
  else 20

/-- One observable event of a waiter run: a poll (one `get_flex_query_data`
call with `max_retries = 1`) starting or ending (recording the registry entry
for the reference at that moment), a backoff sleep of the given start time and
duration, or the timeout being raised at the given elapsed time.  All times
are elapsed wall-clock seconds since the wait began. -/
inductive WaitEvent where
  | pollStarted (poll : Nat) (elapsed : Nat)
  | pollEnded (poll : Nat) (elapsed : Nat) (entry : Option FlexQueryResponse)
  | backoffSleep (poll : Nat) (startElapsed duration : Nat)
  | timedOut (elapsed : Nat)
deriving DecidableEq, Repr

/-- The timeout text raised by `wait_for_query_completion` (the source formats
the elapsed float with no decimals; here elapsed is a natural number). -/
def timeoutMessage (referenceCode : String) (elapsed : Nat) : String :=
  "Flex query " ++ referenceCode ++ " timed out after " ++ toString elapsed ++ " seconds"

/-- The polling loop of `wait_for_query_completion`.  The budget is checked
only at the top of the loop; a poll is one `get_flex_query_data` call with
`max_retries = 1` (so the inner loop performs exactly one attempt and no
inner backoff ever runs); a not-ready failure sleeps the scheduled backoff in
full and loops; any other failure propagates at once; once the top-of-loop
check sees the budget exhausted, the registry entry (if any) is marked Failed
with the timeout text and the timeout is raised.  Alongside the source
behaviour the model returns the final elapsed time and the event trace of the
run. -/
def waitLoop (referenceCode token : String) (maxWaitTime checkInterval : Nat)
    (pollResponses : Nat → AttemptResult) (poll attempt elapsed : Nat)
    (reg : Registry) :
    Except String FlexQueryData × Registry × Nat × List WaitEvent :=
  if h : elapsed < maxWaitTime then
    let fetched := getFlexQueryData referenceCode token 1
      (fun _ => pollResponses poll) reg elapsed
    match fetched.1 with
    | .ok data =>
        (.ok data, fetched.2.1, elapsed + fetched.2.2,
         [WaitEvent.pollStarted poll elapsed,
          WaitEvent.pollEnded poll (elapsed + fetched.2.2) (fetched.2.1 referenceCode)])
    | .error e =>
        if isNotReadyWait e then
          let waitTime := waiterBackoff checkInterval attempt
          let rest := waitLoop referenceCode token maxWaitTime checkInterval
            pollResponses (poll + 1) (attempt + 1) (elapsed + fetched.2.2 + waitTime)
            fetched.2.1
          (rest.1, rest.2.1, rest.2.2.1,
           WaitEvent.pollStarted poll elapsed ::
             WaitEvent.pollEnded poll (elapsed + fetched.2.2) (fetched.2.1 referenceCode) ::
             WaitEvent.backoffSleep poll (elapsed + fetched.2.2) waitTime :: rest.2.2.2)
        else
          (.error e, fetched.2.1, elapsed + fetched.2.2,
           [WaitEvent.pollStarted poll elapsed,
            WaitEvent.pollEnded poll (elapsed + fetched.2.2) (fetched.2.1 referenceCode)])
  else
    (.error (timeoutMessage referenceCode elapsed),
     reg.markFailed referenceCode (timeoutMessage referenceCode elapsed), elapsed,
     [WaitEvent.timedOut elapsed])
termination_by (maxWaitTime - elapsed, 6 - attempt)
decreasing_by
  by_cases hadv :
      elapsed < elapsed + fetched.2.2 + waiterBackoff checkInterval attempt
  · exact Prod.Lex.left _ _ (Nat.sub_lt_sub_left h hadv)
  · have h0 : fetched.2.2 + waiterBackoff checkInterval attempt = 0 := by omega
    have hatt : attempt < 6 := by
      by_contra hge
      have h15 : 15 ≤ waiterBackoff checkInterval attempt := by
        simp only [waiterBackoff]
        split
        · omega
        · split <;> omega
      omega
    have heq : elapsed + fetched.2.2 + waiterBackoff checkInterval attempt = elapsed := by
      omega
    rw [heq]
    exact Prod.Lex.right _ (by omega)

/-- `wait_for_query_completion` (source defaults `max_wait_time = 600`,
`check_interval = 10`): start at elapsed time 0, poll 0, attempt 0. -/
def waitForQueryCompletion (referenceCode token : String)
    (maxWaitTime checkInterval : Nat) (pollResponses : Nat → AttemptResult)
    (reg : Registry) :
    Except String FlexQueryData × Registry × Nat × List WaitEvent :=
  waitLoop referenceCode token maxWaitTime checkInterval pollResponses 0 0 0 reg

/-! ## Performance metrics calculator (`calculate_performance_metrics`) -/

/-- A Python float that may be `float('inf')` (the profit factor when there
are no losses). -/
inductive ExtFloat where
  | finite (q : Rat)
  | posInf
deriving DecidableEq, Repr

/-- `PerformanceMetrics` (`models.py`), with floats as exact rationals and the
period bounds as timestamps. -/
structure PerformanceMetrics where
  totalRealizedPnl : Rat
  totalUnrealizedPnl : Rat
  totalCommissions : Rat
  totalFees : Rat
  netPnl : Rat
  winRate : Rat
  profitFactor : ExtFloat
  maxDrawdown : Rat
  totalTrades : Nat
  winningTrades : Nat
  losingTrades : Nat
  avgWinningTrade : Rat
  avgLosingTrade : Rat
  largestWin : Rat
  largestLoss : Rat
  periodStart : Nat
  periodEnd : Nat
deriving DecidableEq, Repr

/-- `float(trade.get(key, 0))`: missing key yields 0.0; a string value is
parsed, raising (`.error`) where Python `float()` raises. -/
def fieldFloat (r : Record) (k : String) : Except String Rat :=
  match fieldGetD r k (FieldValue.num 0) with
  | .num q => .ok q
  | .str s =>
      match parseFloat s with
      | some q => .ok q
      | none => .error ("could not convert string to float: " ++ s)

/-- The sort key `x.get('trade_date', '')` of the drawdown replay.  In parsed
trade records `trade_date` is always a string (the rename never coerces it);
the numeric arm is unreachable there. -/
def tradeDateKey (r : Record) : String :=
  match fieldGetD r "trade_date" (FieldValue.str "") with
  | .str s => s
  | .num q => toString q

/-- Insert a record into a key-sorted list, before any record of equal key
(so that the overall sort is stable, as Python `sorted` is). -/
def insertByKey (x : Record) : List Record → List Record
  | [] => [x]
  | y :: ys =>
      if decide (tradeDateKey x ≤ tradeDateKey y) then x :: y :: ys
      else y :: insertByKey x ys

/-- `sorted(trade_records, key=lambda x: x.get('trade_date', ''))`: stable
ascending sort by trade date. -/
def sortByTradeDate : List Record → List Record
  | [] => []
  | x :: xs => insertByKey x (sortByTradeDate xs)

/-- One step of the drawdown replay: add the trade's P&L to the running
cumulative P&L, raise the peak if exceeded, and take the drawdown
`(peak - running) / peak` (0 while the peak is not positive) into the running
maximum.  State is `(running, peak, max_drawdown)`. -/
def drawdownStep (st : Rat × Rat × Rat) (pnl : Rat) : Rat × Rat × Rat :=
  let running := st.1 + pnl
  let peak := if running > st.2.1 then running else st.2.1
  let dd := if peak > 0 then (peak - running) / peak else 0
  (running, peak, max st.2.2 dd)

/-- The all-zero metrics returned for an empty record set. -/
def emptyMetrics (startDate endDate : Nat) : PerformanceMetrics :=
  { totalRealizedPnl := 0, totalUnrealizedPnl := 0, totalCommissions := 0,
    totalFees := 0, netPnl := 0, winRate := 0,
    profitFactor := ExtFloat.finite 0, maxDrawdown := 0, totalTrades := 0,
    winningTrades := 0, losingTrades := 0, avgWinningTrade := 0,
    avgLosingTrade := 0, largestWin := 0, largestLoss := 0,
    periodStart := startDate, periodEnd := endDate }

/-- `calculate_performance_metrics`: all-zero metrics on an empty record set;
otherwise totals, winner/loser partition by `realized_pnl`, win rate, profit
factor (infinite when gross loss is 0), per-partition averages and extremes
(`max`/`min` with default 0), and the drawdown replay over the records sorted
by trade date.  A `float()` failure on a field value propagates as `.error`,
in the order the source evaluates the sums. -/
def calculatePerformanceMetrics (tradeRecords : List Record)
    (startDate endDate : Nat) : Except String PerformanceMetrics :=
  if tradeRecords.isEmpty then
    .ok (emptyMetrics startDate endDate)
  else do
    let pnls ← mapExcept (fun t => fieldFloat t "realized_pnl") tradeRecords
    let commissions ← mapExcept (fun t => fieldFloat t "commission") tradeRecords
    let fees ← mapExcept (fun t => fieldFloat t "fees") tradeRecords
    let winningPnls := pnls.filter (fun p => decide (p > 0))
    let losingPnls := pnls.filter (fun p => decide (p < 0))
    let grossProfit := winningPnls.sum
    let grossLoss := |losingPnls.sum|
    let sortedPnls ← mapExcept (fun t => fieldFloat t "realized_pnl")
      (sortByTradeDate tradeRecords)
    pure
      { totalRealizedPnl := pnls.sum
        totalUnrealizedPnl := 0
        totalCommissions := commissions.sum
        totalFees := fees.sum
        netPnl := pnls.sum - commissions.sum - fees.sum
        winRate := (winningPnls.length : Rat) / (tradeRecords.length : Rat)
        profitFactor :=
          if grossLoss > 0 then ExtFloat.finite (grossProfit / grossLoss)
          else ExtFloat.posInf
        maxDrawdown := (sortedPnls.foldl drawdownStep (0, 0, 0)).2.2
        totalTrades := tradeRecords.length
        winningTrades := winningPnls.length
        losingTrades := losingPnls.length
        avgWinningTrade :=
          if winningPnls.isEmpty then 0
          else grossProfit / (winningPnls.length : Rat)
        avgLosingTrade :=
          if losingPnls.isEmpty then 0
          else -grossLoss / (losingPnls.length : Rat)
        largestWin := winningPnls.foldl max 0
        largestLoss := losingPnls.foldl min 0
        periodStart := startDate
        periodEnd := endDate }

/-! ## Concrete inputs and observation helpers used by the verification -/

/-- Projection of a metrics result onto (win rate, profit factor, net P&L). -/
def metricsSummary : Except String PerformanceMetrics → Option (Rat × ExtFloat × Rat)
  | .ok m => some (m.winRate, m.profitFactor, m.netPnl)
  | .error _ => none

/-- The `data_type` of a parse result, when it succeeded. -/
def exceptDataType : Except String FlexQueryData → Option String
  | .ok d => some d.dataType
  | .error _ => none

/-- The `total_records` of a parse result, when it succeeded. -/
def exceptTotalRecords : Except String FlexQueryData → Option Nat
  | .ok d => some d.totalRecords
  | .error _ => none

/-- The error text built from a body-level `ErrorCode`/`ErrorMessage` pair. -/
def bodyErrText (code message : String) : String :=
  "Error " ++ code ++ ": " ++ message

/-- Whether `check_all_brokers_health` would notify subscribers for this
target on this tick: no previous recorded result, or a previous result whose
classification differs from the fresh one. -/
def transitionAt (st : MonitorState) (t : String) (probe : ProbeResult) : Prop :=
  match st.healthChecks t with
  | none => True
  | some oldHealth => oldHealth.health ≠ (checkBrokerHealth t probe st.counters).1.health

/-- A probe dict with three sub-checks of which exactly two succeed and none
carries a warning condition. -/
def twoOfThreeDetails : List CheckEntry :=
  [{ name := "account_access", success := true, durationMs := 12 },
   { name := "market_data", success := true, dataQuality := some "good", durationMs := 8 },
   { name := "positions_access", success := false }]

/-- A Trade element whose `quantity` attribute does not parse as a number. -/
def tradeBadElem : XmlElement :=
  XmlElement.elem "Trade" [("symbol", "AAPL"), ("quantity", "abc")] []

/-- A document whose single Trade record carries the unparseable quantity. -/
def badTradeDoc : XmlElement :=
  XmlElement.elem "FlexQueryResponse" []
    [XmlElement.elem "FlexStatements" []
      [XmlElement.elem "FlexStatement" [] [tradeBadElem]]]

/-- Two trade records: one winner of P&L 100, one loser of P&L -40, no
commission or fee fields. -/
def c6Records : List Record :=
  [[("realized_pnl", FieldValue.num 100)], [("realized_pnl", FieldValue.num (-40))]]

/-- Three Trade elements with parseable numeric attributes. -/
def tradeElemA : XmlElement :=
  XmlElement.elem "Trade" [("quantity", "2"), ("price", "10"), ("realizedPL", "5")] []

/-- Second Trade element. -/
def tradeElemB : XmlElement :=
  XmlElement.elem "Trade" [("quantity", "1"), ("price", "30"), ("realizedPL", "7")] []

/-- Third Trade element. -/
def tradeElemC : XmlElement :=
  XmlElement.elem "Trade" [("quantity", "4"), ("price", "25"), ("realizedPL", "9")] []

/-- A document with exactly three Trade-attributed elements. -/
def goodTradeDoc : XmlElement :=
  XmlElement.elem "FlexQueryResponse" []
    [XmlElement.elem "FlexStatements" []
      [XmlElement.elem "FlexStatement" [] [tradeElemA, tradeElemB, tradeElemC]]]

/-- The record parsed from `tradeElemA`. -/
def c5RecA : Record :=
  [("quantity", FieldValue.num (Rat.divInt (2 : Int) ((10 : Int) ^ 0))),
   ("price", FieldValue.num (Rat.divInt (10 : Int) ((10 : Int) ^ 0))),
   ("realized_pnl", FieldValue.num (Rat.divInt (5 : Int) ((10 : Int) ^ 0)))]

/-- The record parsed from `tradeElemB`. -/
def c5RecB : Record :=
  [("quantity", FieldValue.num (Rat.divInt (1 : Int) ((10 : Int) ^ 0))),
   ("price", FieldValue.num (Rat.divInt (30 : Int) ((10 : Int) ^ 0))),
   ("realized_pnl", FieldValue.num (Rat.divInt (7 : Int) ((10 : Int) ^ 0)))]

/-- The record parsed from `tradeElemC`. -/
def c5RecC : Record :=
  [("quantity", FieldValue.num (Rat.divInt (4 : Int) ((10 : Int) ^ 0))),
   ("price", FieldValue.num (Rat.divInt (25 : Int) ((10 : Int) ^ 0))),
   ("realized_pnl", FieldValue.num (Rat.divInt (9 : Int) ((10 : Int) ^ 0)))]

/-- A probe reporting a disconnected transport-level connection. -/
def disconnectedProbe : ProbeResult :=
  { conn := Except.ok { status := "disconnected" }, details := [] }

/-- Recovery counters already at the budget for every target. -/
def cappedCounters : Counters := fun _ => 3

/-- Three all-successful sub-checks with no warning conditions. -/
def allGoodDetails : List CheckEntry :=
  [{ name := "account_access", success := true, durationMs := 10 },
   { name := "market_data", success := true, dataQuality := some "good", durationMs := 5 },
   { name := "positions_access", success := true, durationMs := 7 }]

/-- A probe of a connected, fully healthy target (same for every id). -/
def connectedProbeAll : String → ProbeResult :=
  fun _ => { conn := Except.ok { status := "connected" }, details := allGoodDetails }

/-- A callback that returns normally. -/
def okCallback : Callback := fun _ _ => Except.ok ()

/-- A callback that raises. -/
def badCallback : Callback := fun _ _ => Except.error "callback boom"

/-- A monitor state with no recorded results and zero counters. -/
def stMonEmpty : MonitorState :=
  { healthChecks := fun _ => none, counters := fun _ => 0 }

/-- A previously recorded Unhealthy result for target `ibkr`. -/
def oldUnhealthyResult : HealthCheckResult :=
  { brokerId := "ibkr", health := ConnectionHealth.unhealthy,
    error := some "Broker disconnected", details := HealthDetails.empty }

/-- A monitor state that last recorded `ibkr` as Unhealthy. -/
def stMonIbkrUnhealthy : MonitorState :=
  { healthChecks := fun x => if x == "ibkr" then some oldUnhealthyResult else none,
    counters := fun _ => 0 }

/-- A remote that answers every poll with a not-ready body error. -/
def notReadyResp : Nat → AttemptResult :=
  fun _ => AttemptResult.bodyError 0 "1019" "Statement is being generated"

/-- An empty job registry. -/
def emptyReg : Registry := fun _ => none

/-- A Running registry entry for reference `REF1`. -/
def q0Running : FlexQueryResponse :=
  { queryId := "Q1", referenceCode := some "REF1",
    status := FlexQueryStatus.running }

/-- A registry holding only the `REF1` entry. -/
def singleReg : Registry :=
  fun r => if r == "REF1" then some q0Running else none

/-- A document with no recognised container and no attributed elements: the
generic fallback parses it to an empty record set, always successfully. -/
def genericDoc : XmlElement := XmlElement.elem "FlexQueryResponse" [] []

/-- A remote that is not ready on poll 0 and serves the statement on poll 1. -/
def c9Resp : Nat → AttemptResult :=
  fun n =>
    if n == 0 then AttemptResult.bodyError 0 "1019" "Statement is being generated"
    else AttemptResult.ok 0 genericDoc

/-- The registry entry after a failed poll of the `c9Resp` run. -/
def q0AfterFail : FlexQueryResponse :=
  { q0Running with status := FlexQueryStatus.failed, errorMessage := some "Error 1019: Statement is being generated" }

/-- The registry entry after the successful second poll of the `c9Resp` run. -/
def q0AfterDone : FlexQueryResponse :=
  { q0AfterFail with status := FlexQueryStatus.completed, completedAt := some 10 }

/-- The parse result of the empty generic document. -/
def genericData : FlexQueryData :=
  { queryId := "REF1", dataType := "generic", records := [], totalRecords := 0 }

/-! ## Shared helper lemmas -/

/-- If some element of the list fails, the whole traversal fails. -/
theorem mapExcept_error {a b : Type} (f : a → Except String b) (l : List a)
    (x : a) (hx : x ∈ l) (e : String) (he : f x = .error e) :
    ∃ msg, mapExcept f l = Except.error msg := by
  induction l with
  | nil => cases hx
  | cons y ys ih =>
      cases hy : f y with
      | error e2 => exact ⟨e2, by simp [mapExcept, hy, Bind.bind, Except.bind]⟩
      | ok b2 =>
          rcases List.mem_cons.mp hx with rfl | hmem
          · rw [hy] at he
            cases he
          · obtain ⟨msg, hmsg⟩ := ih hmem
            exact ⟨msg, by simp [mapExcept, hy, hmsg, Bind.bind, Except.bind]⟩

/-! ## Claims -/

/-- C1 (corrected): for three sub-checks the classifier returns Healthy
exactly when all three succeed with no warnings, and Degraded exactly when
all three succeed with at least one warning; any success count of 2 or fewer
(in particular exactly 2 of 3, which the claim said was Degraded) classifies
as Unhealthy, because 2 is below the 70 percent threshold (2 < 2.1). -/
theorem c1_health_classification (details : List CheckEntry)
    (h3 : details.length = 3) :
    (determineHealthStatus details = ConnectionHealth.healthy ↔
      (details.filter (·.success)).length = 3 ∧
      (details.filter (fun e => e.success && checkWarning e)).length = 0) ∧
    (determineHealthStatus details = ConnectionHealth.degraded ↔
      (details.filter (·.success)).length = 3 ∧
      (details.filter (fun e => e.success && checkWarning e)).length ≠ 0) ∧
    (determineHealthStatus details = ConnectionHealth.unhealthy ↔
      (details.filter (·.success)).length ≤ 2) := by
  have hsle : (details.filter (·.success)).length ≤ 3 := by
    rw [← h3]
    exact List.length_filter_le _ _
  simp only [determineHealthStatus, h3]
  set s := (details.filter (·.success)).length with hs
  set w := (details.filter (fun e => e.success && checkWarning e)).length with hw
  split_ifs with h1 h2
  · simp only [Bool.and_eq_true, beq_iff_eq] at h1
    exact ⟨iff_of_true rfl h1, iff_of_false (by decide) (by omega),
      iff_of_false (by decide) (by omega)⟩
  · simp only [Bool.and_eq_true, beq_iff_eq] at h1
    exact ⟨iff_of_false (by decide) (by omega), iff_of_true rfl (by omega),
      iff_of_false (by decide) (by omega)⟩
  · simp only [Bool.and_eq_true, beq_iff_eq] at h1
    exact ⟨iff_of_false (by decide) (by omega), iff_of_false (by decide) (by omega),
      iff_of_true rfl (by omega)⟩

/-- C1 witness: the classification facts instantiated at a concrete
two-of-three probe dict. -/
theorem c1_health_classification_witness :
    twoOfThreeDetails.length = 3 ∧
    (determineHealthStatus twoOfThreeDetails = ConnectionHealth.unhealthy ↔
      (twoOfThreeDetails.filter (·.success)).length ≤ 2) :=
  ⟨rfl, (c1_health_classification twoOfThreeDetails rfl).2.2⟩

/-- C1 counterexample: with exactly 2 of 3 sub-checks succeeding (and no
warnings), the code classifies Unhealthy, not Degraded as the claim states
(`2 >= 3 * 0.7` is false). -/
theorem c1_counterexample :
    determineHealthStatus twoOfThreeDetails = ConnectionHealth.unhealthy ∧
      determineHealthStatus twoOfThreeDetails ≠ ConnectionHealth.degraded := by
  constructor
  · decide
  · decide

/-- C2 (corrected): contrary to the claim, an unparseable numeric-designated
field does not skip its coercion — `float()` raises, there is no handler in
any parse helper, and the error aborts the whole parse and propagates to the
caller: if any Trade element fails to parse, the document parse fails; the
same for CashTransaction elements when no Trade container is present. -/
theorem c2_parse_error_propagates :
    (∀ root referenceCode,
      (∃ t ∈ findAllDesc root "Trade",
        ∃ e, parseTradeRecord t.attribs = Except.error e) →
      ∃ msg, parseFlexQueryXml root referenceCode = Except.error msg) ∧
    (∀ root referenceCode, findAllDesc root "Trade" = [] →
      (∃ t ∈ findAllDesc root "CashTransaction",
        ∃ e, parseCashTransaction t.attribs = Except.error e) →
      ∃ msg, parseFlexQueryXml root referenceCode = Except.error msg) := by
  constructor
  · rintro root referenceCode ⟨t, ht, e, he⟩
    obtain ⟨msg, hmsg⟩ :=
      mapExcept_error (fun x => parseTradeRecord x.attribs) _ t ht e he
    refine ⟨msg, ?_⟩
    have hne : (findAllDesc root "Trade").isEmpty = false := by
      cases hfa : findAllDesc root "Trade" with
      | nil => rw [hfa] at ht; cases ht
      | cons a as => simp
    simp [parseFlexQueryXml, hne, parseTradeRecords, hmsg, Bind.bind, Except.bind]
  · rintro root referenceCode htr ⟨t, ht, e, he⟩
    obtain ⟨msg, hmsg⟩ :=
      mapExcept_error (fun x => parseCashTransaction x.attribs) _ t ht e he
    refine ⟨msg, ?_⟩
    have hne : (findAllDesc root "CashTransaction").isEmpty = false := by
      cases hfa : findAllDesc root "CashTransaction" with
      | nil => rw [hfa] at ht; cases ht
      | cons a as => simp
    simp [parseFlexQueryXml, htr, hne, parseCashTransactions, hmsg,
      Bind.bind, Except.bind]

/-- C2 witness: the propagation fact applied to the concrete document whose
Trade has `quantity="abc"`. -/
theorem c2_parse_error_propagates_witness :
    ∃ msg, parseFlexQueryXml badTradeDoc "REF-C2W" = Except.error msg :=
  c2_parse_error_propagates.1 badTradeDoc "REF-C2W"
    ⟨tradeBadElem,
     (show findAllDesc badTradeDoc "Trade" = [tradeBadElem] from rfl) ▸
       List.mem_singleton_self tradeBadElem,
     "could not convert string to float: abc", rfl⟩

/-- C2 counterexample: on a document with one Trade whose quantity is the
string `abc`, the parser does not return the record set with the raw string
kept — it returns the `float()` error, which propagates to the caller. -/
theorem c2_counterexample :
    parseFlexQueryXml badTradeDoc "REF-C2" =
      Except.error "could not convert string to float: abc" := rfl

/-- C6 (confirmed): on two trade records with realized P&L 100 and -40 and no
commission or fee fields, the metrics calculator returns win rate 0.5, profit
factor 2.5 and net P&L 60. -/
theorem c6_performance_metrics :
    metricsSummary (calculatePerformanceMetrics c6Records 0 1) =
      some (1/2, ExtFloat.finite (5/2), 60) := by
  have h1 : mapExcept (fun t => fieldFloat t "realized_pnl") c6Records =
      Except.ok [100, -40] := rfl
  have h2 : mapExcept (fun t => fieldFloat t "commission") c6Records =
      Except.ok [0, 0] := rfl
  have h3 : mapExcept (fun t => fieldFloat t "fees") c6Records =
      Except.ok [0, 0] := rfl
  have hsort : sortByTradeDate c6Records = c6Records := by
    simp [sortByTradeDate, insertByKey, c6Records, tradeDateKey, fieldGetD]
  have h4 : mapExcept (fun t => fieldFloat t "realized_pnl")
      (sortByTradeDate c6Records) = Except.ok [100, -40] := by
    rw [hsort]
    exact h1
  have h5 : c6Records.isEmpty = false := rfl
  have h6 : c6Records.length = 2 := rfl
  have hwin : List.filter (fun p => decide ((0:Rat) < p)) [100, -40] = [100] := rfl
  have hlose : List.filter (fun p => decide ((p:Rat) < 0)) [100, -40] = [-40] := rfl
  simp [metricsSummary, calculatePerformanceMetrics, h1, h2, h3, h4, h5, h6,
    hwin, hlose, Bind.bind, Except.bind, Pure.pure, Except.pure]
  norm_num

/-- Symmetry of a failed string comparison. -/
theorem beq_false_symm {k k2 : String} (h : (k == k2) = false) :
    (k2 == k) = false := by
  cases hb : (k2 == k) with
  | false => rfl
  | true =>
      rw [beq_iff_eq] at hb
      subst hb
      simp at h

/-- A key equal to `k2` differs from any key that differs from `k2`. -/
theorem beq_trans_false {p k k2 : String} (hp : (p == k2) = true)
    (h : (k == k2) = false) : (p == k) = false := by
  rw [beq_iff_eq] at hp
  subst hp
  exact beq_false_symm h

/-- Setting a key then reading it back yields the new value. -/
theorem fieldGetD_set_self (r : Record) (k : String) (v d : FieldValue) :
    fieldGetD (fieldSet r k v) k d = v := by
  induction r with
  | nil => simp [fieldSet, fieldGetD, List.find?]
  | cons p ps ih =>
      simp only [fieldSet]
      by_cases hp : (p.1 == k) = true
      · simp [hp, fieldGetD, List.find?]
      · rw [Bool.not_eq_true] at hp
        simpa [hp, fieldGetD, List.find?] using ih

/-- Setting one key leaves reads of a different key unchanged. -/
theorem fieldGetD_set_ne (r : Record) (k k2 : String) (v d : FieldValue)
    (h : (k == k2) = false) :
    fieldGetD (fieldSet r k2 v) k d = fieldGetD r k d := by
  induction r with
  | nil => simp [fieldSet, fieldGetD, List.find?, beq_false_symm h]
  | cons p ps ih =>
      simp only [fieldSet]
      by_cases hp : (p.1 == k2) = true
      · simp [hp, fieldGetD, List.find?, beq_false_symm h, beq_trans_false hp h]
      · rw [Bool.not_eq_true] at hp
        by_cases hk : (p.1 == k) = true
        · simp [hp, fieldGetD, List.find?, hk]
        · rw [Bool.not_eq_true] at hk
          simpa [hp, fieldGetD, List.find?, hk] using ih

/-- Setting one key leaves presence of a different key unchanged. -/
theorem fieldHas_set_ne (r : Record) (k k2 : String) (v : FieldValue)
    (h : (k == k2) = false) :
    fieldHas (fieldSet r k2 v) k = fieldHas r k := by
  induction r with
  | nil => simp [fieldSet, fieldHas, beq_false_symm h]
  | cons p ps ih =>
      simp only [fieldSet]
      by_cases hp : (p.1 == k2) = true
      · simp [hp, fieldHas, beq_false_symm h, beq_trans_false hp h]
      · rw [Bool.not_eq_true] at hp
        simp only [hp, Bool.false_eq_true, if_false]
        simp only [fieldHas, List.any_cons] at ih ⊢
        rw [ih]

/-- Erasing one key leaves reads of a different key unchanged. -/
theorem fieldGetD_erase_ne (r : Record) (k k2 : String) (d : FieldValue)
    (h : (k == k2) = false) :
    fieldGetD (fieldErase r k2) k d = fieldGetD r k d := by
  induction r with
  | nil => simp [fieldErase, fieldGetD]
  | cons p ps ih =>
      by_cases hp : (p.1 == k2) = true
      · simpa [fieldErase, List.filter, bne, hp, fieldGetD, List.find?,
          beq_trans_false hp h] using ih
      · rw [Bool.not_eq_true] at hp
        by_cases hk : (p.1 == k) = true
        · simp [fieldErase, List.filter, bne, hp, fieldGetD, List.find?, hk]
        · rw [Bool.not_eq_true] at hk
          simpa [fieldErase, List.filter, bne, hp, fieldGetD, List.find?, hk]
            using ih

/-- Erasing one key leaves presence of a different key unchanged. -/
theorem fieldHas_erase_ne (r : Record) (k k2 : String)
    (h : (k == k2) = false) :
    fieldHas (fieldErase r k2) k = fieldHas r k := by
  induction r with
  | nil => simp [fieldErase, fieldHas]
  | cons p ps ih =>
      by_cases hp : (p.1 == k2) = true
      · simpa [fieldErase, List.filter, bne, hp, fieldHas,
          beq_trans_false hp h] using ih
      · rw [Bool.not_eq_true] at hp
        by_cases hk : (p.1 == k) = true
        · simp [fieldErase, List.filter, bne, hp, fieldHas, hk]
        · rw [Bool.not_eq_true] at hk
          simpa [fieldErase, List.filter, bne, hp, fieldHas, hk] using ih

/-- Renaming between two other keys leaves a key's value and presence
unchanged. -/
theorem renameField_preserve (r : Record) (oldKey newKey k : String)
    (d : FieldValue) (ho : (k == oldKey) = false) (hn : (k == newKey) = false) :
    fieldGetD (renameField r oldKey newKey) k d = fieldGetD r k d ∧
    fieldHas (renameField r oldKey newKey) k = fieldHas r k := by
  unfold renameField
  split
  · constructor
    · rw [fieldGetD_set_ne _ _ _ _ _ hn, fieldGetD_erase_ne _ _ _ _ ho]
    · rw [fieldHas_set_ne _ _ _ _ hn, fieldHas_erase_ne _ _ _ ho]
  · exact ⟨rfl, rfl⟩

/-- A successful in-place coercion leaves the key holding a float, when the
key was present. -/
theorem coerceFloatAt_ok_num (r : Record) (k : String) (r2 : Record)
    (h : coerceFloatAt r k = Except.ok r2) (hk : fieldHas r k = true) :
    ∃ q, fieldGetD r2 k (FieldValue.str "") = FieldValue.num q := by
  unfold coerceFloatAt at h
  rw [hk] at h
  simp only [if_true] at h
  cases hv : fieldGetD r k (FieldValue.str "") with
  | str s =>
      rw [hv] at h
      dsimp only at h
      cases hp : parseFloat s with
      | some q =>
          rw [hp] at h
          cases h
          exact ⟨q, fieldGetD_set_self r k _ _⟩
      | none =>
          rw [hp] at h
          cases h
  | num q =>
      rw [hv] at h
      dsimp only at h
      cases h
      exact ⟨q, fieldGetD_set_self r k _ _⟩

/-- A successful in-place coercion of another key leaves this key's value and
presence unchanged. -/
theorem coerceFloatAt_preserve (r : Record) (k k2 : String) (r2 : Record)
    (d : FieldValue) (h : coerceFloatAt r k2 = Except.ok r2)
    (hne : (k == k2) = false) :
    fieldGetD r2 k d = fieldGetD r k d ∧ fieldHas r2 k = fieldHas r k := by
  unfold coerceFloatAt at h
  cases hk2 : fieldHas r k2 with
  | false =>
      rw [hk2] at h
      simp only [Bool.false_eq_true, if_false] at h
      cases h
      exact ⟨rfl, rfl⟩
  | true =>
      rw [hk2] at h
      simp only [if_true] at h
      cases hv : fieldGetD r k2 (FieldValue.str "") with
      | str s =>
          rw [hv] at h
          dsimp only at h
          cases hp : parseFloat s with
          | some q =>
              rw [hp] at h
              cases h
              exact ⟨fieldGetD_set_ne _ _ _ _ _ hne, fieldHas_set_ne _ _ _ _ hne⟩
          | none =>
              rw [hp] at h
              cases h
      | num q =>
          rw [hv] at h
          dsimp only at h
          cases h
          exact ⟨fieldGetD_set_ne _ _ _ _ _ hne, fieldHas_set_ne _ _ _ _ hne⟩

/-- A successful pop-and-coerce leaves the new key holding a float, when the
old key was present. -/
theorem popCoerceFloat_ok_num (r : Record) (oldKey newKey : String)
    (r2 : Record) (h : popCoerceFloat r oldKey newKey = Except.ok r2)
    (hk : fieldHas r oldKey = true) :
    ∃ q, fieldGetD r2 newKey (FieldValue.str "") = FieldValue.num q := by
  unfold popCoerceFloat at h
  rw [hk] at h
  simp only [if_true] at h
  cases hv : fieldGetD r oldKey (FieldValue.str "") with
  | str s =>
      rw [hv] at h
      dsimp only at h
      cases hp : parseFloat s with
      | some q =>
          rw [hp] at h
          cases h
          exact ⟨q, fieldGetD_set_self _ _ _ _⟩
      | none =>
          rw [hp] at h
          cases h
  | num q =>
      rw [hv] at h
      dsimp only at h
      cases h
      exact ⟨q, fieldGetD_set_self _ _ _ _⟩

/-- A successful pop-and-coerce of other keys leaves this key's value and
presence unchanged. -/
theorem popCoerceFloat_preserve (r : Record) (oldKey newKey k : String)
    (r2 : Record) (d : FieldValue)
    (h : popCoerceFloat r oldKey newKey = Except.ok r2)
    (ho : (k == oldKey) = false) (hn : (k == newKey) = false) :
    fieldGetD r2 k d = fieldGetD r k d ∧ fieldHas r2 k = fieldHas r k := by
  unfold popCoerceFloat at h
  cases hk : fieldHas r oldKey with
  | false =>
      rw [hk] at h
      simp only [Bool.false_eq_true, if_false] at h
      cases h
      exact ⟨rfl, rfl⟩
  | true =>
      rw [hk] at h
      simp only [if_true] at h
      cases hv : fieldGetD r oldKey (FieldValue.str "") with
      | str s =>
          rw [hv] at h
          dsimp only at h
          cases hp : parseFloat s with
          | some q =>
              rw [hp] at h
              cases h
              constructor
              · rw [fieldGetD_set_ne _ _ _ _ _ hn, fieldGetD_erase_ne _ _ _ _ ho]
              · rw [fieldHas_set_ne _ _ _ _ hn, fieldHas_erase_ne _ _ _ ho]
          | none =>
              rw [hp] at h
              cases h
      | num q =>
          rw [hv] at h
          dsimp only at h
          cases h
          constructor
          · rw [fieldGetD_set_ne _ _ _ _ _ hn, fieldGetD_erase_ne _ _ _ _ ho]
          · rw [fieldHas_set_ne _ _ _ _ hn, fieldHas_erase_ne _ _ _ ho]

/-- In a successfully parsed trade record, each numeric-designated field that
was present in the source attributes ends up as a float. -/
theorem parseTradeRecord_floats (attribs : List (String × String)) (r : Record)
    (h : parseTradeRecord attribs = Except.ok r) :
    (fieldHas (stringRecord attribs) "quantity" = true →
      ∃ q, fieldGetD r "quantity" (FieldValue.str "") = FieldValue.num q) ∧
    (fieldHas (stringRecord attribs) "price" = true →
      ∃ q, fieldGetD r "price" (FieldValue.str "") = FieldValue.num q) ∧
    (fieldHas (stringRecord attribs) "realizedPL" = true →
      ∃ q, fieldGetD r "realized_pnl" (FieldValue.str "") = FieldValue.num q) := by
  simp only [parseTradeRecord, Bind.bind, Except.bind] at h
  cases h3 : coerceFloatAt (renameField (renameField (stringRecord attribs)
      "tradeDate" "trade_date") "settleDate" "settle_date") "quantity" with
  | error e => rw [h3] at h; simp at h
  | ok r3 =>
  rw [h3] at h
  dsimp only at h
  cases h4 : coerceFloatAt r3 "price" with
  | error e => rw [h4] at h; simp at h
  | ok r4 =>
  rw [h4] at h
  dsimp only at h
  cases h5 : coerceFloatAt r4 "proceeds" with
  | error e => rw [h5] at h; simp at h
  | ok r5 =>
  rw [h5] at h
  dsimp only at h
  cases h6 : coerceFloatAt r5 "commission" with
  | error e => rw [h6] at h; simp at h
  | ok r6 =>
  rw [h6] at h
  dsimp only at h
  refine ⟨?_, ?_, ?_⟩
  · intro hq
    have hq2 : fieldHas (renameField (renameField (stringRecord attribs)
        "tradeDate" "trade_date") "settleDate" "settle_date") "quantity" = true := by
      rw [(renameField_preserve _ "settleDate" "settle_date" "quantity"
            (FieldValue.str "") (by decide) (by decide)).2,
          (renameField_preserve _ "tradeDate" "trade_date" "quantity"
            (FieldValue.str "") (by decide) (by decide)).2]
      exact hq
    obtain ⟨q, hq3⟩ := coerceFloatAt_ok_num _ _ _ h3 hq2
    refine ⟨q, ?_⟩
    rw [(popCoerceFloat_preserve r6 "realizedPL" "realized_pnl" "quantity" r
          (FieldValue.str "") h (by decide) (by decide)).1,
        (coerceFloatAt_preserve r5 "quantity" "commission" r6
          (FieldValue.str "") h6 (by decide)).1,
        (coerceFloatAt_preserve r4 "quantity" "proceeds" r5
          (FieldValue.str "") h5 (by decide)).1,
        (coerceFloatAt_preserve r3 "quantity" "price" r4
          (FieldValue.str "") h4 (by decide)).1]
    exact hq3
  · intro hp
    have hp2 : fieldHas r3 "price" = true := by
      rw [(coerceFloatAt_preserve _ "price" "quantity" r3
            (FieldValue.str "") h3 (by decide)).2,
          (renameField_preserve _ "settleDate" "settle_date" "price"
            (FieldValue.str "") (by decide) (by decide)).2,
          (renameField_preserve _ "tradeDate" "trade_date" "price"
            (FieldValue.str "") (by decide) (by decide)).2]
      exact hp
    obtain ⟨q, hp3⟩ := coerceFloatAt_ok_num _ _ _ h4 hp2
    refine ⟨q, ?_⟩
    rw [(popCoerceFloat_preserve r6 "realizedPL" "realized_pnl" "price" r
          (FieldValue.str "") h (by decide) (by decide)).1,
        (coerceFloatAt_preserve r5 "price" "commission" r6
          (FieldValue.str "") h6 (by decide)).1,
        (coerceFloatAt_preserve r4 "price" "proceeds" r5
          (FieldValue.str "") h5 (by decide)).1]
    exact hp3
  · intro hr
    have hr2 : fieldHas r6 "realizedPL" = true := by
      rw [(coerceFloatAt_preserve r5 "realizedPL" "commission" r6
            (FieldValue.str "") h6 (by decide)).2,
          (coerceFloatAt_preserve r4 "realizedPL" "proceeds" r5
            (FieldValue.str "") h5 (by decide)).2,
          (coerceFloatAt_preserve r3 "realizedPL" "price" r4
            (FieldValue.str "") h4 (by decide)).2,
          (coerceFloatAt_preserve _ "realizedPL" "quantity" r3
            (FieldValue.str "") h3 (by decide)).2,
          (renameField_preserve _ "settleDate" "settle_date" "realizedPL"
            (FieldValue.str "") (by decide) (by decide)).2,
          (renameField_preserve _ "tradeDate" "trade_date" "realizedPL"
            (FieldValue.str "") (by decide) (by decide)).2]
      exact hr
    exact popCoerceFloat_ok_num r6 "realizedPL" "realized_pnl" r h hr2

/-- C5 (corrected): a document with exactly three Trade-attributed elements
parses to exactly 3 records whose numeric-designated fields present in the
source (quantity, price, realizedPL) are floats — but the discriminator the
code assigns is the plural string `trades`, not `trade` as the claim
states. -/
theorem c5_trades_parse :
    (∀ root referenceCode t1 t2 t3 r1 r2 r3,
      findAllDesc root "Trade" = [t1, t2, t3] →
      parseTradeRecord t1.attribs = Except.ok r1 →
      parseTradeRecord t2.attribs = Except.ok r2 →
      parseTradeRecord t3.attribs = Except.ok r3 →
      parseFlexQueryXml root referenceCode =
        Except.ok { queryId := referenceCode, dataType := "trades",
                    records := [r1, r2, r3], totalRecords := 3 }) ∧
    (∀ attribs r, parseTradeRecord attribs = Except.ok r →
      (fieldHas (stringRecord attribs) "quantity" = true →
        ∃ q, fieldGetD r "quantity" (FieldValue.str "") = FieldValue.num q) ∧
      (fieldHas (stringRecord attribs) "price" = true →
        ∃ q, fieldGetD r "price" (FieldValue.str "") = FieldValue.num q) ∧
      (fieldHas (stringRecord attribs) "realizedPL" = true →
        ∃ q, fieldGetD r "realized_pnl" (FieldValue.str "") = FieldValue.num q)) := by
  constructor
  · intro root referenceCode t1 t2 t3 r1 r2 r3 hfind h1 h2 h3
    simp [parseFlexQueryXml, hfind, parseTradeRecords, mapExcept, h1, h2, h3,
      Bind.bind, Except.bind, Pure.pure, Except.pure]
  · intro attribs r h
    exact parseTradeRecord_floats attribs r h

/-- C5 witness: the parse fact instantiated at the concrete three-trade
document, together with the float fact for the first record's quantity. -/
theorem c5_trades_parse_witness :
    parseFlexQueryXml goodTradeDoc "REF-C5W" =
      Except.ok { queryId := "REF-C5W", dataType := "trades",
                  records := [c5RecA, c5RecB, c5RecC], totalRecords := 3 } ∧
    (∃ q, fieldGetD c5RecA "quantity" (FieldValue.str "") = FieldValue.num q) :=
  ⟨c5_trades_parse.1 goodTradeDoc "REF-C5W" tradeElemA tradeElemB tradeElemC
      c5RecA c5RecB c5RecC rfl rfl rfl rfl,
   (c5_trades_parse.2 tradeElemA.attribs c5RecA rfl).1 rfl⟩

/-- C5 counterexample: the three-trade document parses to 3 records, but the
`data_type` is the string `trades`, not `trade` as the claim states. -/
theorem c5_counterexample :
    exceptDataType (parseFlexQueryXml goodTradeDoc "REF-C5") = some "trades" ∧
    exceptTotalRecords (parseFlexQueryXml goodTradeDoc "REF-C5") = some 3 ∧
    (some "trades" : Option String) ≠ some "trade" :=
  ⟨rfl, rfl, by decide⟩

/-- C7 (confirmed): every health check preserves the bound
`recovery_attempts ≤ max_recovery_attempts` for every target; a check that
classifies the target Healthy leaves its counter at zero; and when the budget
is already exhausted, a disconnected target is reported Unhealthy with the
attempt count in the result's details. -/
theorem c7_recovery_invariant (brokerId : String) (probe : ProbeResult)
    (counters : Counters)
    (hbound : ∀ b, counters.get b ≤ maxRecoveryAttempts) :
    (∀ b, (checkBrokerHealth brokerId probe counters).2.get b ≤ maxRecoveryAttempts) ∧
    ((checkBrokerHealth brokerId probe counters).1.health = ConnectionHealth.healthy →
      (checkBrokerHealth brokerId probe counters).2.get brokerId = 0) ∧
    (∀ c, probe.conn = Except.ok c → c.status = "disconnected" →
      counters.get brokerId = maxRecoveryAttempts →
      (checkBrokerHealth brokerId probe counters).1.health = ConnectionHealth.unhealthy ∧
      (checkBrokerHealth brokerId probe counters).1.details =
        HealthDetails.recoveryAttempts maxRecoveryAttempts) := by
  unfold checkBrokerHealth
  cases hconn : probe.conn with
  | error e =>
      refine ⟨fun b => hbound b, ?_, ?_⟩
      · intro hh
        simp at hh
      · intro c hc
        cases hc
  | ok c =>
      dsimp only
      by_cases hst : (c.status == "connected") = true
      · simp only [hst, if_true]
        by_cases hhl : (determineHealthStatus probe.details ==
            ConnectionHealth.healthy) = true
        · refine ⟨?_, ?_, ?_⟩
          · intro b
            simp only [hhl, if_true, Counters.get, Counters.erase, Counters.set]
            by_cases hb : (b == brokerId) = true
            · simp [hb]
            · rw [Bool.not_eq_true] at hb
              simpa [hb] using hbound b
          · intro _
            simp [hhl, Counters.get, Counters.erase, Counters.set]
          · intro c2 hc2 hds _
            cases hc2
            rw [beq_iff_eq] at hst
            rw [hst] at hds
            simp at hds
        · rw [Bool.not_eq_true] at hhl
          refine ⟨?_, ?_, ?_⟩
          · intro b
            simpa [hhl] using hbound b
          · intro hh
            rw [hh] at hhl
            simp at hhl
          · intro c2 hc2 hds _
            cases hc2
            rw [beq_iff_eq] at hst
            rw [hst] at hds
            simp at hds
      · rw [Bool.not_eq_true] at hst
        simp only [hst, Bool.false_eq_true, if_false]
        by_cases hds : (c.status == "disconnected") = true
        · simp only [hds, if_true]
          by_cases hlt : counters.get brokerId < maxRecoveryAttempts
          · simp only [hlt, if_true, attemptRecovery, Bool.false_eq_true, if_false]
            refine ⟨?_, ?_, ?_⟩
            · intro b
              simp only [Counters.get, Counters.set]
              by_cases hb : (b == brokerId) = true
              · simp only [hb, if_true]
                simp only [Counters.get] at hlt
                omega
              · rw [Bool.not_eq_true] at hb
                simpa [hb] using hbound b
            · intro hh
              simp at hh
            · intro c2 hc2 _ hmax
              exact absurd hmax (by omega)
          · simp only [hlt, if_false]
            refine ⟨fun b => hbound b, ?_, ?_⟩
            · intro hh
              simp at hh
            · intro c2 hc2 _ hmax
              refine ⟨trivial, ?_⟩
              rw [hmax]
        · rw [Bool.not_eq_true] at hds
          simp only [hds, Bool.false_eq_true, if_false]
          refine ⟨fun b => hbound b, ?_, ?_⟩
          · intro hh
            simp at hh
          · intro c2 hc2 hds2 _
            cases hc2
            rw [hds2] at hds
            simp at hds

/-- C7 witness: the invariant instantiated at a disconnected target whose
budget is already exhausted. -/
theorem c7_recovery_invariant_witness :
    (∀ b, (checkBrokerHealth "ibkr" disconnectedProbe cappedCounters).2.get b ≤
      maxRecoveryAttempts) ∧
    ((checkBrokerHealth "ibkr" disconnectedProbe cappedCounters).1.health =
        ConnectionHealth.healthy →
      (checkBrokerHealth "ibkr" disconnectedProbe cappedCounters).2.get "ibkr" = 0) ∧
    (∀ c, disconnectedProbe.conn = Except.ok c → c.status = "disconnected" →
      cappedCounters.get "ibkr" = maxRecoveryAttempts →
      (checkBrokerHealth "ibkr" disconnectedProbe cappedCounters).1.health =
        ConnectionHealth.unhealthy ∧
      (checkBrokerHealth "ibkr" disconnectedProbe cappedCounters).1.details =
        HealthDetails.recoveryAttempts maxRecoveryAttempts) :=
  c7_recovery_invariant "ibkr" disconnectedProbe cappedCounters
    (fun _ => Nat.le.refl)

/-- The health-check result depends on the counters only through this
target's own counter. -/
theorem checkBrokerHealth_congr (b : String) (p : ProbeResult)
    (cs cs2 : Counters) (h : cs b = cs2 b) :
    (checkBrokerHealth b p cs).1 = (checkBrokerHealth b p cs2).1 := by
  unfold checkBrokerHealth
  cases hp : p.conn with
  | error e => rfl
  | ok c =>
      dsimp only
      by_cases hst : (c.status == "connected") = true
      · simp [hst]
      · rw [Bool.not_eq_true] at hst
        simp only [hst, Bool.false_eq_true, if_false]
        by_cases hds : (c.status == "disconnected") = true
        · simp only [hds, if_true, Counters.get, Counters.set, h]
          by_cases hlt : cs2 b < maxRecoveryAttempts
          · simp [hlt, attemptRecovery]
          · simp [hlt]
        · rw [Bool.not_eq_true] at hds
          simp [hds]

/-- Checking one target never touches another target's counter. -/
theorem checkBrokerHealth_counters_frame (b : String) (p : ProbeResult)
    (cs : Counters) (x : String) (hx : (x == b) = false) :
    (checkBrokerHealth b p cs).2 x = cs x := by
  unfold checkBrokerHealth
  cases hp : p.conn with
  | error e => rfl
  | ok c =>
      dsimp only
      by_cases hst : (c.status == "connected") = true
      · simp only [hst, if_true]
        by_cases hh : (determineHealthStatus p.details ==
            ConnectionHealth.healthy) = true
        · simp [hh, Counters.erase, Counters.set, hx]
        · rw [Bool.not_eq_true] at hh
          simp [hh]
      · rw [Bool.not_eq_true] at hst
        simp only [hst, Bool.false_eq_true, if_false]
        by_cases hds : (c.status == "disconnected") = true
        · simp only [hds, if_true]
          by_cases hlt : cs.get b < maxRecoveryAttempts
          · simp [hlt, attemptRecovery, Counters.set, hx]
          · simp [hlt]
        · rw [Bool.not_eq_true] at hds
          simp [hds]

/-- One callback event per registered callback, in registration order. -/
theorem runCallbacks_length (cbs : List Callback) (brokerId : String)
    (health : ConnectionHealth) :
    (runCallbacks cbs brokerId health).length = cbs.length := by
  simp [runCallbacks]

/-- Every event produced by the callback loop names the notifying target. -/
theorem runCallbacks_brokerId (cbs : List Callback) (brokerId : String)
    (health : ConnectionHealth) :
    ∀ ev ∈ runCallbacks cbs brokerId health, ev.brokerId = brokerId := by
  intro ev hev
  simp only [runCallbacks, List.mem_map] at hev
  obtain ⟨p, _, rfl⟩ := hev
  rfl

/-- Filtering the callback events by their own target keeps them all. -/
theorem runCallbacks_filter_self (cbs : List Callback) (brokerId : String)
    (health : ConnectionHealth) :
    (runCallbacks cbs brokerId health).filter (fun ev => ev.brokerId == brokerId) =
      runCallbacks cbs brokerId health := by
  rw [List.filter_eq_self]
  intro ev hev
  rw [runCallbacks_brokerId cbs brokerId health ev hev]
  simp

/-- Filtering the callback events by a different target drops them all. -/
theorem runCallbacks_filter_ne (cbs : List Callback) (brokerId t : String)
    (health : ConnectionHealth) (hne : (brokerId == t) = false) :
    (runCallbacks cbs brokerId health).filter (fun ev => ev.brokerId == t) = [] := by
  rw [List.filter_eq_nil]
  intro ev hev
  rw [runCallbacks_brokerId cbs brokerId health ev hev]
  simp only [hne]
  exact Bool.false_ne_true

/-- Every event of a tick names a target of the tick. -/
theorem checkAll_events_mem (brokers : List String) (probe : String → ProbeResult)
    (cbs : List Callback) (st : MonitorState) :
    ∀ ev ∈ (checkAllBrokersHealth brokers probe cbs st).2.1,
      ev.brokerId ∈ brokers := by
  induction brokers generalizing st with
  | nil => simp [checkAllBrokersHealth]
  | cons b rest ih =>
      intro ev hev
      simp only [checkAllBrokersHealth, List.mem_append] at hev
      rcases hev with hev | hev
      · cases hsb : st.healthChecks b with
        | none =>
            rw [hsb] at hev
            dsimp only at hev
            rw [runCallbacks_brokerId _ _ _ ev hev]
            exact List.mem_cons_self b rest
        | some old =>
            rw [hsb] at hev
            dsimp only at hev
            by_cases hdiff : old.health ≠
                (checkBrokerHealth b (probe b) st.counters).1.health
            · rw [if_pos hdiff] at hev
              rw [runCallbacks_brokerId _ _ _ ev hev]
              exact List.mem_cons_self b rest
            · rw [if_neg hdiff] at hev
              cases hev
      · exact List.mem_cons_of_mem b (ih _ ev hev)

/-- Every target of a tick yields exactly one entry in the results map. -/
theorem checkAll_results_length (brokers : List String)
    (probe : String → ProbeResult) (cbs : List Callback) (st : MonitorState) :
    (checkAllBrokersHealth brokers probe cbs st).2.2.length = brokers.length := by
  induction brokers generalizing st with
  | nil => rfl
  | cons b rest ih => simp [checkAllBrokersHealth, ih]

/-- In one tick, the callback events concerning a given registered target are
exactly one invocation of every callback when the target transitioned, and
none otherwise. -/
theorem checkAll_filter_events (probe : String → ProbeResult)
    (cbs : List Callback) :
    ∀ (brokers : List String) (st : MonitorState) (t : String),
      brokers.Nodup → t ∈ brokers →
      (transitionAt st t (probe t) →
        (checkAllBrokersHealth brokers probe cbs st).2.1.filter
            (fun ev => ev.brokerId == t) =
          runCallbacks cbs t (checkBrokerHealth t (probe t) st.counters).1.health) ∧
      (¬ transitionAt st t (probe t) →
        (checkAllBrokersHealth brokers probe cbs st).2.1.filter
            (fun ev => ev.brokerId == t) = []) := by
  intro brokers
  induction brokers with
  | nil =>
      intro st t _ ht
      cases ht
  | cons b rest ih =>
      intro st t hnd ht
      rw [List.nodup_cons] at hnd
      have hev : (checkAllBrokersHealth (b :: rest) probe cbs st).2.1 =
          (match st.healthChecks b with
           | none => runCallbacks cbs b
               (checkBrokerHealth b (probe b) st.counters).1.health
           | some old =>
               if old.health ≠ (checkBrokerHealth b (probe b) st.counters).1.health
               then runCallbacks cbs b
                 (checkBrokerHealth b (probe b) st.counters).1.health
               else []) ++
          (checkAllBrokersHealth rest probe cbs
            { healthChecks := fun x =>
                if x == b then some (checkBrokerHealth b (probe b) st.counters).1
                else st.healthChecks x,
              counters := (checkBrokerHealth b (probe b) st.counters).2 }).2.1 := rfl
      rcases List.mem_cons.mp ht with rfl | htr
      · -- the target is the head broker
        have htail : (checkAllBrokersHealth rest probe cbs
            { healthChecks := fun x =>
                if x == t then some (checkBrokerHealth t (probe t) st.counters).1
                else st.healthChecks x,
              counters := (checkBrokerHealth t (probe t) st.counters).2 }).2.1.filter
            (fun ev => ev.brokerId == t) = [] := by
          rw [List.filter_eq_nil]
          intro ev hevm
          have hmem := checkAll_events_mem rest probe cbs _ ev hevm
          intro hb
          rw [beq_iff_eq] at hb
          rw [hb] at hmem
          exact hnd.1 hmem
        constructor
        · intro htrans
          rw [hev, List.filter_append, htail, List.append_nil]
          unfold transitionAt at htrans
          cases hsb : st.healthChecks t with
          | none =>
              dsimp only
              exact runCallbacks_filter_self cbs t _
          | some old =>
              rw [hsb] at htrans
              dsimp only at htrans ⊢
              rw [if_pos htrans]
              exact runCallbacks_filter_self cbs t _
        · intro hntrans
          rw [hev, List.filter_append, htail, List.append_nil]
          unfold transitionAt at hntrans
          cases hsb : st.healthChecks t with
          | none =>
              rw [hsb] at hntrans
              dsimp only at hntrans
              exact absurd trivial hntrans
          | some old =>
              rw [hsb] at hntrans
              dsimp only at hntrans ⊢
              rw [if_neg hntrans]
              rfl
      · -- the target sits in the tail
        have hne : (t == b) = false := by
          cases htb : (t == b) with
          | false => rfl
          | true =>
              rw [beq_iff_eq] at htb
              rw [htb] at htr
              exact absurd htr hnd.1
        have hbt : (b == t) = false := beq_false_symm hne
        have hhc : (fun x =>
            if x == b then some (checkBrokerHealth b (probe b) st.counters).1
            else st.healthChecks x) t = st.healthChecks t := by
          simp only [hne, Bool.false_eq_true, if_false]
        have hcnt : (checkBrokerHealth b (probe b) st.counters).2 t = st.counters t :=
          checkBrokerHealth_counters_frame b (probe b) st.counters t hne
        have hcongr : (checkBrokerHealth t (probe t)
              (checkBrokerHealth b (probe b) st.counters).2).1 =
            (checkBrokerHealth t (probe t) st.counters).1 :=
          checkBrokerHealth_congr t (probe t) _ _ hcnt
        have htrans_eq : transitionAt
            { healthChecks := fun x =>
                if x == b then some (checkBrokerHealth b (probe b) st.counters).1
                else st.healthChecks x,
              counters := (checkBrokerHealth b (probe b) st.counters).2 } t (probe t) =
            transitionAt st t (probe t) := by
          unfold transitionAt
          simp only [hhc, hcongr]
        have hhead : ((match st.healthChecks b with
            | none => runCallbacks cbs b
                (checkBrokerHealth b (probe b) st.counters).1.health
            | some old =>
                if old.health ≠ (checkBrokerHealth b (probe b) st.counters).1.health
                then runCallbacks cbs b
                  (checkBrokerHealth b (probe b) st.counters).1.health
                else []) : List CbEvent).filter (fun ev => ev.brokerId == t) = [] := by
          cases hsb : st.healthChecks b with
          | none => exact runCallbacks_filter_ne cbs b t _ hbt
          | some old =>
              dsimp only
              split
              · exact runCallbacks_filter_ne cbs b t _ hbt
              · rfl
        obtain ⟨ihA, ihB⟩ := ih
          { healthChecks := fun x =>
              if x == b then some (checkBrokerHealth b (probe b) st.counters).1
              else st.healthChecks x,
            counters := (checkBrokerHealth b (probe b) st.counters).2 } t hnd.2 htr
        constructor
        · intro htrans
          rw [hev, List.filter_append, hhead, List.nil_append]
          rw [ihA (by rw [htrans_eq]; exact htrans)]
          rw [hcongr]
        · intro hntrans
          rw [hev, List.filter_append, hhead, List.nil_append]
          exact ihB (by rw [htrans_eq]; exact hntrans)

/-- C8 (confirmed): in one monitoring tick over distinct registered targets,
every target is checked and produces a result (a raising callback cannot
abort the tick: the per-callback `try`/`except` makes the loops total), and
for each target the subscriber events are exactly one invocation of every
registered callback — raising or not — when the fresh classification differs
from the previously recorded one (or none was recorded), and no invocation
at all otherwise. -/
theorem c8_callbacks_once_per_transition (brokers : List String)
    (probe : String → ProbeResult) (cbs : List Callback) (st : MonitorState)
    (t : String) (hnd : brokers.Nodup) (ht : t ∈ brokers) :
    (checkAllBrokersHealth brokers probe cbs st).2.2.length = brokers.length ∧
    (transitionAt st t (probe t) →
      (checkAllBrokersHealth brokers probe cbs st).2.1.filter
          (fun ev => ev.brokerId == t) =
        runCallbacks cbs t (checkBrokerHealth t (probe t) st.counters).1.health ∧
      ((checkAllBrokersHealth brokers probe cbs st).2.1.filter
          (fun ev => ev.brokerId == t)).length = cbs.length) ∧
    (¬ transitionAt st t (probe t) →
      (checkAllBrokersHealth brokers probe cbs st).2.1.filter
          (fun ev => ev.brokerId == t) = []) := by
  obtain ⟨hA, hB⟩ := checkAll_filter_events probe cbs brokers st t hnd ht
  refine ⟨checkAll_results_length brokers probe cbs st, ?_, hB⟩
  intro htrans
  refine ⟨hA htrans, ?_⟩
  rw [hA htrans]
  exact runCallbacks_length cbs t _

/-- C8 witness: a two-target tick with one normal and one raising callback,
starting from an empty registry: both targets are checked and the target
`alpha` (with no previous result, hence a transition) receives exactly one
event per callback. -/
theorem c8_callbacks_once_per_transition_witness :
    (checkAllBrokersHealth ["alpha", "beta"] connectedProbeAll
        [okCallback, badCallback] stMonEmpty).2.2.length = 2 ∧
    ((checkAllBrokersHealth ["alpha", "beta"] connectedProbeAll
        [okCallback, badCallback] stMonEmpty).2.1.filter
        (fun ev => ev.brokerId == "alpha")).length = 2 := by
  have h := c8_callbacks_once_per_transition ["alpha", "beta"] connectedProbeAll
    [okCallback, badCallback] stMonEmpty "alpha" (by decide) (by decide)
  exact ⟨h.1, (h.2.1 trivial).2⟩

/-- C10 (confirmed): a forced health check of a specific target replaces the
stored result for that target with the fresh check result but never invokes a
subscriber callback, even when the classification changed — while the same
fresh result on the all-targets tick path would have produced one event per
callback. -/
theorem c10_force_check_no_callbacks (brokerId : String)
    (probe : String → ProbeResult) (cbs : List Callback) (st : MonitorState)
    (old : HealthCheckResult)
    (hold : st.healthChecks brokerId = some old)
    (hdiff : old.health ≠ (checkBrokerHealth brokerId (probe brokerId) st.counters).1.health) :
    (forceHealthCheck brokerId probe cbs st).2.1.healthChecks brokerId =
      some (checkBrokerHealth brokerId (probe brokerId) st.counters).1 ∧
    (forceHealthCheck brokerId probe cbs st).2.2 = [] ∧
    (checkAllBrokersHealth [brokerId] probe cbs st).2.1.length = cbs.length := by
  refine ⟨?_, rfl, ?_⟩
  · simp [forceHealthCheck]
  · have h := (checkAll_filter_events probe cbs [brokerId] st brokerId
      (by simp) (by simp)).1
    have htr : transitionAt st brokerId (probe brokerId) := by
      unfold transitionAt
      rw [hold]
      exact hdiff
    have hall : ∀ ev ∈ (checkAllBrokersHealth [brokerId] probe cbs st).2.1,
        (ev.brokerId == brokerId) = true := by
      intro ev hev
      have := checkAll_events_mem [brokerId] probe cbs st ev hev
      simp only [List.mem_singleton] at this
      rw [this]
      simp
    have hfe : (checkAllBrokersHealth [brokerId] probe cbs st).2.1.filter
        (fun ev => ev.brokerId == brokerId) =
        (checkAllBrokersHealth [brokerId] probe cbs st).2.1 :=
      List.filter_eq_self.mpr hall
    rw [← hfe, h htr]
    exact runCallbacks_length cbs brokerId _

/-- C10 witness: forcing a check of `ibkr` — previously recorded Unhealthy,
now probing Healthy — stores the fresh result and fires no callback, while
the tick path would have fired one event per callback. -/
theorem c10_force_check_no_callbacks_witness :
    (forceHealthCheck "ibkr" connectedProbeAll [okCallback]
        stMonIbkrUnhealthy).2.1.healthChecks "ibkr" =
      some (checkBrokerHealth "ibkr" (connectedProbeAll "ibkr")
        stMonIbkrUnhealthy.counters).1 ∧
    (forceHealthCheck "ibkr" connectedProbeAll [okCallback]
        stMonIbkrUnhealthy).2.2 = [] ∧
    (checkAllBrokersHealth ["ibkr"] connectedProbeAll [okCallback]
        stMonIbkrUnhealthy).2.1.length = 1 :=
  c10_force_check_no_callbacks "ibkr" connectedProbeAll [okCallback]
    stMonIbkrUnhealthy oldUnhealthyResult rfl (by decide)

/-- A single-attempt fetch (`max_retries = 1`) whose attempt is a body error
fails with the built error text, marking the registry entry Failed, and
consumes exactly the attempt's duration. -/
theorem getFlexQueryData_one_bodyError (referenceCode token : String)
    (responses : Nat → AttemptResult) (d : Nat) (code msg : String)
    (reg : Registry) (now : Nat)
    (h0 : responses 0 = AttemptResult.bodyError d code msg) :
    getFlexQueryData referenceCode token 1 responses reg now =
      (Except.error (bodyErrText code msg),
       reg.markFailed referenceCode (bodyErrText code msg), d) := by
  simp [getFlexQueryData, getFlexQueryDataAux, tryFetchStep, h0, bodyErrText]

/-- A single-attempt fetch whose attempt returns a parseable statement
succeeds, marking the registry entry Completed at the finishing time. -/
theorem getFlexQueryData_one_ok (referenceCode token : String)
    (responses : Nat → AttemptResult) (d : Nat) (root : XmlElement)
    (data : FlexQueryData) (reg : Registry) (now : Nat)
    (h0 : responses 0 = AttemptResult.ok d root)
    (hp : parseFlexQueryXml root referenceCode = Except.ok data) :
    getFlexQueryData referenceCode token 1 responses reg now =
      (Except.ok data, reg.markCompleted referenceCode (now + d), d) := by
  simp [getFlexQueryData, getFlexQueryDataAux, tryFetchStep, h0, hp]

/-- Marking a registered reference Failed updates exactly its status and
error message. -/
theorem markFailed_self (reg : Registry) (referenceCode msg : String)
    (q : FlexQueryResponse) (h : reg referenceCode = some q) :
    (reg.markFailed referenceCode msg) referenceCode =
      some { q with status := FlexQueryStatus.failed, errorMessage := some msg } := by
  simp [Registry.markFailed, h]

/-- Marking a registered reference Completed updates exactly its status and
completion time. -/
theorem markCompleted_self (reg : Registry) (referenceCode : String) (now : Nat)
    (q : FlexQueryResponse) (h : reg referenceCode = some q) :
    (reg.markCompleted referenceCode now) referenceCode =
      some { q with status := FlexQueryStatus.completed, completedAt := some now } := by
  simp [Registry.markCompleted, h]

/-- The full run of the waiter against an always-not-ready remote with a
15-second budget: the first backoff ends at 10, the second runs from 10 to
20 — through the budget instant 15 — and the timeout is raised at 20. -/
theorem notReadyRun_eq :
    waitForQueryCompletion "REF1" "TOK" 15 10 notReadyResp emptyReg =
      (Except.error (timeoutMessage "REF1" 20), emptyReg, 20,
       [WaitEvent.pollStarted 0 0, WaitEvent.pollEnded 0 0 none,
        WaitEvent.backoffSleep 0 0 10,
        WaitEvent.pollStarted 1 10, WaitEvent.pollEnded 1 10 none,
        WaitEvent.backoffSleep 1 10 10,
        WaitEvent.timedOut 20]) := by
  have hnr : isNotReadyWait "Error 1019: Statement is being generated" = true := by
    decide
  rw [waitForQueryCompletion, waitLoop]
  simp only [getFlexQueryData, getFlexQueryDataAux, tryFetchStep, notReadyResp,
    hnr, waiterBackoff]
  simp [Registry.markFailed, emptyReg, hnr, waiterBackoff]
  rw [waitLoop]
  simp only [getFlexQueryData, getFlexQueryDataAux, tryFetchStep, notReadyResp,
    hnr, waiterBackoff]
  simp [Registry.markFailed, emptyReg, hnr, waiterBackoff]
  rw [waitLoop]
  simp [timeoutMessage, Registry.markFailed, emptyReg]

/-- The full observable behaviour of a wait that is not ready once and then
succeeds: the first poll marks the registry entry Failed with the not-ready
text (visible in the trace), and the final successful poll overwrites it with
Completed. -/
theorem c9RunEq :
    (waitForQueryCompletion "REF1" "TOK" 600 10 c9Resp singleReg).1 =
      Except.ok genericData ∧
    (waitForQueryCompletion "REF1" "TOK" 600 10 c9Resp singleReg).2.1 "REF1" =
      some q0AfterDone ∧
    (waitForQueryCompletion "REF1" "TOK" 600 10 c9Resp singleReg).2.2.2 =
      [WaitEvent.pollStarted 0 0, WaitEvent.pollEnded 0 0 (some q0AfterFail),
       WaitEvent.backoffSleep 0 0 10,
       WaitEvent.pollStarted 1 10, WaitEvent.pollEnded 1 10 (some q0AfterDone)] := by
  have hnr : isNotReadyWait "Error 1019: Statement is being generated" = true := by
    decide
  have hparse : parseFlexQueryXml genericDoc "REF1" = Except.ok genericData := rfl
  refine ⟨?_, ?_, ?_⟩ <;>
    · rw [waitForQueryCompletion, waitLoop]
      simp only [getFlexQueryData, getFlexQueryDataAux, tryFetchStep, c9Resp, hnr,
        waiterBackoff, hparse]
      simp [Registry.markFailed, singleReg, hnr, waiterBackoff, q0AfterFail]
      rw [waitLoop]
      simp only [getFlexQueryData, getFlexQueryDataAux, tryFetchStep, c9Resp, hnr,
        waiterBackoff, hparse]
      simp [Registry.markCompleted, Registry.markFailed, singleReg, q0AfterFail,
        q0AfterDone, q0Running, genericData, hparse]

/-- The waiter loop measure strictly decreases across one not-ready
iteration. -/
theorem waiter_measure_decrease (maxWaitTime checkInterval attempt elapsed d N : Nat)
    (hlt : elapsed < maxWaitTime)
    (hN : (maxWaitTime - elapsed) * 7 + (6 - attempt) ≤ N + 1) :
    (maxWaitTime - (elapsed + d + waiterBackoff checkInterval attempt)) * 7 +
      (6 - (attempt + 1)) ≤ N := by
  by_cases h6 : attempt < 6
  · by_cases hadv : elapsed < elapsed + d + waiterBackoff checkInterval attempt
    · have hs : maxWaitTime - (elapsed + d + waiterBackoff checkInterval attempt) <
          maxWaitTime - elapsed := Nat.sub_lt_sub_left hlt hadv
      omega
    · have h0 : elapsed + d + waiterBackoff checkInterval attempt = elapsed := by
        omega
      rw [h0]
      omega
  · have h15 : 15 ≤ waiterBackoff checkInterval attempt := by
      simp only [waiterBackoff]
      split
      · omega
      · split <;> omega
    have hs : maxWaitTime - (elapsed + d + waiterBackoff checkInterval attempt) <
        maxWaitTime - elapsed := Nat.sub_lt_sub_left hlt (by omega)
    omega

/-- Against a remote that answers every poll with a not-ready body error, the
waiter loop always ends in the timeout branch: the raised error is the
timeout text, the registry entry is marked Failed with that text, and the
final elapsed time is at least the budget. -/
theorem waitLoop_timeout_of_notReady (referenceCode token : String)
    (maxWaitTime checkInterval : Nat) (pollResponses : Nat → AttemptResult)
    (ds : Nat → Nat) (cs ms : Nat → String)
    (hnr : ∀ n, pollResponses n = AttemptResult.bodyError (ds n) (cs n) (ms n))
    (hwait : ∀ n, isNotReadyWait (bodyErrText (cs n) (ms n)) = true) :
    ∀ N poll attempt elapsed reg q0,
      (maxWaitTime - elapsed) * 7 + (6 - attempt) ≤ N →
      reg referenceCode = some q0 →
      ∃ finalElapsed q,
        (waitLoop referenceCode token maxWaitTime checkInterval pollResponses
            poll attempt elapsed reg).1 =
          Except.error (timeoutMessage referenceCode finalElapsed) ∧
        (waitLoop referenceCode token maxWaitTime checkInterval pollResponses
            poll attempt elapsed reg).2.1 referenceCode = some q ∧
        q.status = FlexQueryStatus.failed ∧
        q.errorMessage = some (timeoutMessage referenceCode finalElapsed) ∧
        (waitLoop referenceCode token maxWaitTime checkInterval pollResponses
            poll attempt elapsed reg).2.2.1 = finalElapsed ∧
        maxWaitTime ≤ finalElapsed := by
  intro N
  induction N with
  | zero =>
      intro poll attempt elapsed reg q0 hN hq
      have hge : ¬ elapsed < maxWaitTime := by omega
      rw [waitLoop, dif_neg hge]
      exact ⟨elapsed,
        { q0 with status := FlexQueryStatus.failed, errorMessage := some (timeoutMessage referenceCode elapsed) },
        rfl, markFailed_self reg referenceCode _ q0 hq, rfl, rfl, rfl, by omega⟩
  | succ n ih =>
      intro poll attempt elapsed reg q0 hN hq
      by_cases hlt : elapsed < maxWaitTime
      · rw [waitLoop, dif_pos hlt]
        have hfetch : getFlexQueryData referenceCode token 1
            (fun _ => pollResponses poll) reg elapsed =
            (Except.error (bodyErrText (cs poll) (ms poll)),
             reg.markFailed referenceCode (bodyErrText (cs poll) (ms poll)),
             ds poll) :=
          getFlexQueryData_one_bodyError referenceCode token _ (ds poll)
            (cs poll) (ms poll) reg elapsed (hnr poll)
        rw [hfetch]
        dsimp only
        rw [if_pos (hwait poll)]
        dsimp only
        exact ih (poll + 1) (attempt + 1)
          (elapsed + ds poll + waiterBackoff checkInterval attempt)
          (reg.markFailed referenceCode (bodyErrText (cs poll) (ms poll)))
          { q0 with status := FlexQueryStatus.failed, errorMessage := some (bodyErrText (cs poll) (ms poll)) }
          (waiter_measure_decrease maxWaitTime checkInterval attempt elapsed
            (ds poll) n hlt hN)
          (markFailed_self reg referenceCode _ q0 hq)
      · rw [waitLoop, dif_neg hlt]
        exact ⟨elapsed,
          { q0 with status := FlexQueryStatus.failed, errorMessage := some (timeoutMessage referenceCode elapsed) },
          rfl, markFailed_self reg referenceCode _ q0 hq, rfl, rfl, rfl, by omega⟩

/-- C4 (confirmed): when the remote is still not ready at every poll, the
wait raises the timeout error, the job registry entry for the reference is
set to status Failed with the timeout message recorded as its error, and the
entry remains retrievable through `get_query_status` afterwards (the
reference is never deleted), so the caller can resume with a fresh wait. -/
theorem c4_timeout_marks_failed (referenceCode token : String)
    (maxWaitTime checkInterval : Nat) (pollResponses : Nat → AttemptResult)
    (ds : Nat → Nat) (cs ms : Nat → String) (reg : Registry)
    (q0 : FlexQueryResponse)
    (hnr : ∀ n, pollResponses n = AttemptResult.bodyError (ds n) (cs n) (ms n))
    (hwait : ∀ n, isNotReadyWait (bodyErrText (cs n) (ms n)) = true)
    (hreg : reg referenceCode = some q0) :
    ∃ finalElapsed q,
      (waitForQueryCompletion referenceCode token maxWaitTime checkInterval
          pollResponses reg).1 =
        Except.error (timeoutMessage referenceCode finalElapsed) ∧
      getQueryStatus (waitForQueryCompletion referenceCode token maxWaitTime
          checkInterval pollResponses reg).2.1 referenceCode = some q ∧
      q.status = FlexQueryStatus.failed ∧
      q.errorMessage = some (timeoutMessage referenceCode finalElapsed) ∧
      maxWaitTime ≤ finalElapsed := by
  obtain ⟨f, q, h1, h2, h3, h4, _, h6⟩ :=
    waitLoop_timeout_of_notReady referenceCode token maxWaitTime checkInterval
      pollResponses ds cs ms hnr hwait
      ((maxWaitTime - 0) * 7 + (6 - 0)) 0 0 0 reg q0 (Nat.le.refl) hreg
  exact ⟨f, q, h1, h2, h3, h4, h6⟩

/-- C4 witness: the timeout behaviour at a concrete registry and an
always-not-ready remote with a 15-second budget. -/
theorem c4_timeout_marks_failed_witness :
    ∃ finalElapsed q,
      (waitForQueryCompletion "REF1" "TOK" 15 10 notReadyResp singleReg).1 =
        Except.error (timeoutMessage "REF1" finalElapsed) ∧
      getQueryStatus (waitForQueryCompletion "REF1" "TOK" 15 10 notReadyResp
          singleReg).2.1 "REF1" = some q ∧
      q.status = FlexQueryStatus.failed ∧
      q.errorMessage = some (timeoutMessage "REF1" finalElapsed) ∧
      15 ≤ finalElapsed :=
  c4_timeout_marks_failed "REF1" "TOK" 15 10 notReadyResp
    (fun _ => 0) (fun _ => "1019") (fun _ => "Statement is being generated")
    singleReg q0Running (fun _ => rfl)
    (fun _ => (by decide :
      isNotReadyWait (bodyErrText "1019" "Statement is being generated") = true))
    rfl

/-- In every waiter run, each poll is started strictly before the budget
instant, and the timeout event is raised at a loop-top check whose elapsed
time is at least the budget. -/
theorem waitLoop_trace_bounds (referenceCode token : String)
    (maxWaitTime checkInterval : Nat) (pollResponses : Nat → AttemptResult) :
    ∀ N poll attempt elapsed reg,
      (maxWaitTime - elapsed) * 7 + (6 - attempt) ≤ N →
      (∀ p e2, WaitEvent.pollStarted p e2 ∈
          (waitLoop referenceCode token maxWaitTime checkInterval pollResponses
            poll attempt elapsed reg).2.2.2 → e2 < maxWaitTime) ∧
      (∀ e2, WaitEvent.timedOut e2 ∈
          (waitLoop referenceCode token maxWaitTime checkInterval pollResponses
            poll attempt elapsed reg).2.2.2 → maxWaitTime ≤ e2) := by
  intro N
  induction N with
  | zero =>
      intro poll attempt elapsed reg hN
      have hge : ¬ elapsed < maxWaitTime := by omega
      rw [waitLoop, dif_neg hge]
      constructor
      · intro p e2 hmem
        simp at hmem
      · intro e2 hmem
        simp at hmem
        omega
  | succ n ih =>
      intro poll attempt elapsed reg hN
      by_cases hlt : elapsed < maxWaitTime
      · rw [waitLoop, dif_pos hlt]
        dsimp only
        cases hres : (getFlexQueryData referenceCode token 1
            (fun _ => pollResponses poll) reg elapsed).1 with
        | ok data =>
            dsimp only
            constructor
            · intro p e2 hmem
              simp at hmem
              omega
            · intro e2 hmem
              simp at hmem
        | error e =>
            dsimp only
            cases hw : isNotReadyWait e with
            | true =>
                rw [if_pos rfl]
                dsimp only
                have hrec := ih (poll + 1) (attempt + 1)
                  (elapsed + (getFlexQueryData referenceCode token 1
                    (fun _ => pollResponses poll) reg elapsed).2.2 +
                    waiterBackoff checkInterval attempt)
                  (getFlexQueryData referenceCode token 1
                    (fun _ => pollResponses poll) reg elapsed).2.1
                  (waiter_measure_decrease maxWaitTime checkInterval attempt
                    elapsed _ n hlt hN)
                constructor
                · intro p e2 hmem
                  simp only [List.mem_cons] at hmem
                  rcases hmem with h | h | h | h
                  · cases h
                    exact hlt
                  · cases h
                  · cases h
                  · exact hrec.1 p e2 h
                · intro e2 hmem
                  simp only [List.mem_cons] at hmem
                  rcases hmem with h | h | h | h
                  · cases h
                  · cases h
                  · cases h
                  · exact hrec.2 e2 h
            | false =>
                rw [if_neg (by simp [hw])]
                constructor
                · intro p e2 hmem
                  simp at hmem
                  omega
                · intro e2 hmem
                  simp at hmem
      · rw [waitLoop, dif_neg hlt]
        constructor
        · intro p e2 hmem
          simp at hmem
        · intro e2 hmem
          simp at hmem
          omega

/-- C3 (corrected): the budget is enforced only at the top of the polling
loop — every poll is issued strictly before the budget has elapsed, but an
in-progress backoff sleep is never interrupted, so the Timeout is raised at
the first loop-top check at or after the budget instant, possibly later than
the instant itself. -/
theorem c3_budget_checked_at_loop_top (referenceCode token : String)
    (maxWaitTime checkInterval : Nat) (pollResponses : Nat → AttemptResult)
    (reg : Registry) :
    (∀ p e2, WaitEvent.pollStarted p e2 ∈
        (waitForQueryCompletion referenceCode token maxWaitTime checkInterval
          pollResponses reg).2.2.2 → e2 < maxWaitTime) ∧
    (∀ e2, WaitEvent.timedOut e2 ∈
        (waitForQueryCompletion referenceCode token maxWaitTime checkInterval
          pollResponses reg).2.2.2 → maxWaitTime ≤ e2) :=
  waitLoop_trace_bounds referenceCode token maxWaitTime checkInterval
    pollResponses ((maxWaitTime - 0) * 7 + (6 - 0)) 0 0 0 reg (Nat.le.refl)

/-- C3 witness: the loop-top bounds applied to the concrete 15-second run:
poll 0 starts at 0 (before the budget) and the timeout is raised at 20 (at or
after the budget). -/
theorem c3_budget_checked_at_loop_top_witness :
    (0 : Nat) < 15 ∧ (15 : Nat) ≤ 20 :=
  ⟨(c3_budget_checked_at_loop_top "REF1" "TOK" 15 10 notReadyResp emptyReg).1
      0 0 (by rw [notReadyRun_eq]; simp),
   (c3_budget_checked_at_loop_top "REF1" "TOK" 15 10 notReadyResp emptyReg).2
      20 (by rw [notReadyRun_eq]; simp)⟩

/-- C3 counterexample: with a 15-second budget against an always-not-ready
remote, the second backoff sleep starts at elapsed 10 and runs 10 full
seconds — past the budget instant 15 — and the Timeout is raised only at
elapsed 20, not as soon as the elapsed time reaches `max_wait_time`. -/
theorem c3_counterexample :
    (waitForQueryCompletion "REF1" "TOK" 15 10 notReadyResp emptyReg).2.2.1 = 20 ∧
    WaitEvent.backoffSleep 1 10 10 ∈
      (waitForQueryCompletion "REF1" "TOK" 15 10 notReadyResp emptyReg).2.2.2 ∧
    WaitEvent.timedOut 20 ∈
      (waitForQueryCompletion "REF1" "TOK" 15 10 notReadyResp emptyReg).2.2.2 ∧
    10 + 10 > 15 ∧ (20 : Nat) ≠ 15 := by
  refine ⟨?_, ?_, ?_, by omega, by omega⟩
  · rw [notReadyRun_eq]
  · rw [notReadyRun_eq]
    simp
  · rw [notReadyRun_eq]
    simp

/-- In a wait whose first `K` polls are not-ready body errors and whose
`K`-th poll serves the statement, every recorded poll-end for a poll below
`K` shows the registry entry Failed with that poll's error text, the poll-end
for poll `K` shows it Completed, and if the wait returns successfully it
returns the parsed data with the entry finally Completed. -/
theorem waitLoop_notReady_then_ok (referenceCode token : String)
    (maxWaitTime checkInterval K : Nat) (pollResponses : Nat → AttemptResult)
    (ds : Nat → Nat) (cs ms : Nat → String) (dK : Nat) (root : XmlElement)
    (data : FlexQueryData)
    (hnr : ∀ n, n < K → pollResponses n = AttemptResult.bodyError (ds n) (cs n) (ms n))
    (hwait : ∀ n, n < K → isNotReadyWait (bodyErrText (cs n) (ms n)) = true)
    (hK : pollResponses K = AttemptResult.ok dK root)
    (hparse : parseFlexQueryXml root referenceCode = Except.ok data) :
    ∀ N poll attempt elapsed reg q0,
      poll ≤ K →
      (maxWaitTime - elapsed) * 7 + (6 - attempt) ≤ N →
      reg referenceCode = some q0 →
      (∀ p e2 entry, WaitEvent.pollEnded p e2 entry ∈
          (waitLoop referenceCode token maxWaitTime checkInterval pollResponses
            poll attempt elapsed reg).2.2.2 →
        (p < K → ∃ q, entry = some q ∧ q.status = FlexQueryStatus.failed ∧
          q.errorMessage = some (bodyErrText (cs p) (ms p))) ∧
        (p = K → ∃ q, entry = some q ∧ q.status = FlexQueryStatus.completed)) ∧
      (∀ d2, (waitLoop referenceCode token maxWaitTime checkInterval pollResponses
          poll attempt elapsed reg).1 = Except.ok d2 →
        d2 = data ∧ ∃ q, (waitLoop referenceCode token maxWaitTime checkInterval
          pollResponses poll attempt elapsed reg).2.1 referenceCode = some q ∧
          q.status = FlexQueryStatus.completed) := by
  intro N
  induction N with
  | zero =>
      intro poll attempt elapsed reg q0 hpK hN hq
      have hge : ¬ elapsed < maxWaitTime := by omega
      rw [waitLoop, dif_neg hge]
      constructor
      · intro p e2 entry hmem
        simp at hmem
      · intro d2 hok
        simp at hok
  | succ n ih =>
      intro poll attempt elapsed reg q0 hpK hN hq
      by_cases hlt : elapsed < maxWaitTime
      · rw [waitLoop, dif_pos hlt]
        by_cases hpoll : poll < K
        · have hfetch : getFlexQueryData referenceCode token 1
              (fun _ => pollResponses poll) reg elapsed =
              (Except.error (bodyErrText (cs poll) (ms poll)),
               reg.markFailed referenceCode (bodyErrText (cs poll) (ms poll)),
               ds poll) :=
            getFlexQueryData_one_bodyError referenceCode token _ (ds poll)
              (cs poll) (ms poll) reg elapsed (hnr poll hpoll)
          rw [hfetch]
          dsimp only
          rw [if_pos (hwait poll hpoll)]
          dsimp only
          have hrec := ih (poll + 1) (attempt + 1)
            (elapsed + ds poll + waiterBackoff checkInterval attempt)
            (reg.markFailed referenceCode (bodyErrText (cs poll) (ms poll)))
            { q0 with status := FlexQueryStatus.failed, errorMessage := some (bodyErrText (cs poll) (ms poll)) }
            (by omega)
            (waiter_measure_decrease maxWaitTime checkInterval attempt elapsed
              (ds poll) n hlt hN)
            (markFailed_self reg referenceCode _ q0 hq)
          constructor
          · intro p e2 entry hmem
            simp only [List.mem_cons] at hmem
            rcases hmem with h | h | h | h
            · cases h
            · cases h
              constructor
              · intro _
                exact ⟨{ q0 with status := FlexQueryStatus.failed, errorMessage := some (bodyErrText (cs poll) (ms poll)) },
                  markFailed_self reg referenceCode _ q0 hq, rfl, rfl⟩
              · intro hpk2
                exact absurd hpk2 (by omega)
            · cases h
            · exact hrec.1 p e2 entry h
          · intro d2 hok
            exact hrec.2 d2 hok
        · have hpeq : poll = K := by omega
          subst hpeq
          have hfetch : getFlexQueryData referenceCode token 1
              (fun _ => pollResponses poll) reg elapsed =
              (Except.ok data,
               reg.markCompleted referenceCode (elapsed + dK), dK) :=
            getFlexQueryData_one_ok referenceCode token _ dK root data reg
              elapsed hK hparse
          rw [hfetch]
          dsimp only
          constructor
          · intro p e2 entry hmem
            simp only [List.mem_cons, List.not_mem_nil, or_false] at hmem
            rcases hmem with h | h
            · cases h
            · cases h
              constructor
              · intro hpk2
                exact absurd hpk2 (by omega)
              · intro _
                exact ⟨{ q0 with status := FlexQueryStatus.completed, completedAt := some (elapsed + dK) },
                  markCompleted_self reg referenceCode (elapsed + dK) q0 hq, rfl⟩
          · intro d2 hok
            cases hok
            exact ⟨rfl,
              ⟨{ q0 with status := FlexQueryStatus.completed, completedAt := some (elapsed + dK) },
               markCompleted_self reg referenceCode (elapsed + dK) q0 hq, rfl⟩⟩
      · rw [waitLoop, dif_neg hlt]
        constructor
        · intro p e2 entry hmem
          simp at hmem
        · intro d2 hok
          simp at hok

/-- C9 (confirmed): a single-attempt fetch (`max_retries = 1`, as the waiter
polls) that hits a not-ready body error for a registered reference marks the
entry Failed with the not-ready text before the error propagates; and during
a wait whose first `K` polls are not ready and which then succeeds, every
recorded poll-end before poll `K` shows the entry Failed with the not-ready
text, until the final successful fetch overwrites it with Completed. -/
theorem c9_notReady_marks_failed_between_polls :
    (∀ (referenceCode token : String) (responses : Nat → AttemptResult)
        (d : Nat) (code msg : String) (reg : Registry) (now : Nat)
        (q0 : FlexQueryResponse),
      responses 0 = AttemptResult.bodyError d code msg →
      isNotReadyFetch (bodyErrText code msg) = true →
      reg referenceCode = some q0 →
      (getFlexQueryData referenceCode token 1 responses reg now).1 =
        Except.error (bodyErrText code msg) ∧
      (getFlexQueryData referenceCode token 1 responses reg now).2.1
          referenceCode =
        some { q0 with status := FlexQueryStatus.failed, errorMessage := some (bodyErrText code msg) }) ∧
    (∀ (referenceCode token : String) (maxWaitTime checkInterval K : Nat)
        (pollResponses : Nat → AttemptResult) (ds : Nat → Nat)
        (cs ms : Nat → String) (dK : Nat) (root : XmlElement)
        (data : FlexQueryData) (reg : Registry) (q0 : FlexQueryResponse),
      (∀ n, n < K → pollResponses n = AttemptResult.bodyError (ds n) (cs n) (ms n)) →
      (∀ n, n < K → isNotReadyWait (bodyErrText (cs n) (ms n)) = true) →
      pollResponses K = AttemptResult.ok dK root →
      parseFlexQueryXml root referenceCode = Except.ok data →
      reg referenceCode = some q0 →
      (∀ p e2 entry, WaitEvent.pollEnded p e2 entry ∈
          (waitForQueryCompletion referenceCode token maxWaitTime checkInterval
            pollResponses reg).2.2.2 →
        (p < K → ∃ q, entry = some q ∧ q.status = FlexQueryStatus.failed ∧
          q.errorMessage = some (bodyErrText (cs p) (ms p))) ∧
        (p = K → ∃ q, entry = some q ∧ q.status = FlexQueryStatus.completed)) ∧
      (∀ d2, (waitForQueryCompletion referenceCode token maxWaitTime
          checkInterval pollResponses reg).1 = Except.ok d2 →
        d2 = data ∧ ∃ q, getQueryStatus (waitForQueryCompletion referenceCode
          token maxWaitTime checkInterval pollResponses reg).2.1 referenceCode =
          some q ∧ q.status = FlexQueryStatus.completed)) := by
  constructor
  · intro referenceCode token responses d code msg reg now q0 h0 _ hq
    rw [getFlexQueryData_one_bodyError referenceCode token responses d code msg
      reg now h0]
    exact ⟨rfl, markFailed_self reg referenceCode _ q0 hq⟩
  · intro referenceCode token maxWaitTime checkInterval K pollResponses ds cs ms
      dK root data reg q0 hnr hwait hK hparse hq
    exact waitLoop_notReady_then_ok referenceCode token maxWaitTime checkInterval
      K pollResponses ds cs ms dK root data hnr hwait hK hparse
      ((maxWaitTime - 0) * 7 + (6 - 0)) 0 0 0 reg q0 (Nat.zero_le K)
      (Nat.le.refl) hq

/-- C9 witness: the per-poll marking and the overall wait behaviour at the
concrete one-not-ready-then-success remote against the `REF1` registry. -/
theorem c9_notReady_marks_failed_between_polls_witness :
    ((getFlexQueryData "REF1" "TOK" 1 c9Resp singleReg 0).1 =
      Except.error (bodyErrText "1019" "Statement is being generated") ∧
     (getFlexQueryData "REF1" "TOK" 1 c9Resp singleReg 0).2.1 "REF1" =
      some { q0Running with status := FlexQueryStatus.failed, errorMessage := some (bodyErrText "1019" "Statement is being generated") }) ∧
    (∃ q, (some q0AfterFail : Option FlexQueryResponse) = some q ∧
      q.status = FlexQueryStatus.failed ∧
      q.errorMessage = some (bodyErrText "1019" "Statement is being generated")) ∧
    (genericData = genericData ∧
      ∃ q, getQueryStatus (waitForQueryCompletion "REF1" "TOK" 600 10 c9Resp
        singleReg).2.1 "REF1" = some q ∧ q.status = FlexQueryStatus.completed) :=
  ⟨c9_notReady_marks_failed_between_polls.1 "REF1" "TOK" c9Resp 0 "1019"
      "Statement is being generated" singleReg 0 q0Running rfl (by decide) rfl,
   ((c9_notReady_marks_failed_between_polls.2 "REF1" "TOK" 600 10 1 c9Resp
      (fun _ => 0) (fun _ => "1019") (fun _ => "Statement is being generated")
      0 genericDoc genericData singleReg q0Running
      (fun n hn =>
        match n, hn with
        | 0, _ => rfl
        | k + 1, h2 => absurd (Nat.lt_of_succ_lt_succ h2) (Nat.not_lt_zero k))
      (fun n hn =>
        match n, hn with
        | 0, _ => (by decide :
            isNotReadyWait (bodyErrText "1019" "Statement is being generated") = true)
        | k + 1, h2 => absurd (Nat.lt_of_succ_lt_succ h2) (Nat.not_lt_zero k))
      rfl rfl rfl).1 0 0 (some q0AfterFail)
      (by rw [c9RunEq.2.2]; simp)).1 (by decide),
   (c9_notReady_marks_failed_between_polls.2 "REF1" "TOK" 600 10 1 c9Resp
      (fun _ => 0) (fun _ => "1019") (fun _ => "Statement is being generated")
      0 genericDoc genericData singleReg q0Running
      (fun n hn =>
        match n, hn with
        | 0, _ => rfl
        | k + 1, h2 => absurd (Nat.lt_of_succ_lt_succ h2) (Nat.not_lt_zero k))
      (fun n hn =>
        match n, hn with
        | 0, _ => (by decide :
            isNotReadyWait (bodyErrText "1019" "Statement is being generated") = true)
        | k + 1, h2 => absurd (Nat.lt_of_succ_lt_succ h2) (Nat.not_lt_zero k))
      rfl rfl rfl).2 genericData c9RunEq.1⟩
